import Mathlib

/-!
Verification development for the horse64 compiler/VM core.

Each C function used by the claims is embedded as a Lean definition that
follows the source line by line (bytecode.c, unicode.c, stack.c, vmexec.c,
compiler/scoperesolver.c).  Machine integers are modelled as `Int`/`Nat`
(values stay far from the 64-bit overflow boundary in every claim), buffers
as lists, and out-parameters as returned tuples.  Allocation failure points
are modelled by explicit boolean oracles, one per `malloc`/`realloc`/`strdup`
site, so that both the success and the out-of-memory paths of the source are
represented.  Collaborator code that is not part of the repository sources
(uri.c, hash.c, debugsymbols.c, the corelib) is modelled from the
specification and marked as such in its doc comment.
-/

namespace Horse64

/-! ## unicode.c -/

namespace Unicode

/-- C `is_utf8_start` (unicode.c:17-26): checks the three multi-byte
lead-byte patterns. -/
def is_utf8_start (c : Nat) : Bool :=
  if (c &&& 0xE0) == 0xC0 then true        -- 110xxxxx
  else if (c &&& 0xF0) == 0xE0 then true   -- 1110xxxx
  else if (c &&& 0xF8) == 0xF0 then true   -- 11110xxx
  else false

/-- C `utf8_char_len` (unicode.c:28-36). -/
def utf8_char_len (p : Nat) : Nat :=
  if (p &&& 0xE0) == 0xC0 then 2
  else if (p &&& 0xF0) == 0xE0 then 3
  else if (p &&& 0xF8) == 0xF0 then 4
  else 1

/-- C `write_codepoint_as_utf8` (unicode.c:38-88).  Returns the bytes the C
code stores into `out` (`none` models the `return 0` paths).  The
`surrogateunescape` parameter of the C function is never read by its body and
is dropped here.  Note the source writes the lead byte of the three-byte and
four-byte forms with `| 0xC0` (lines 64 and 77), not `| 0xE0` / `| 0xF0`;
the translation keeps that behaviour. -/
def write_codepoint_as_utf8 (codepoint : Nat) (outbuflen : Int) :
    Option (List Nat) :=
  if codepoint < 0x80 then
    if outbuflen < 1 then none
    else some [codepoint]
  else if codepoint < 0x800 then
    let byte2val := codepoint &&& 0x3F
    let byte1val := (codepoint &&& 0x7C0) >>> 6
    if outbuflen < 2 then none
    else some [byte1val ||| 0xC0, byte2val ||| 0x80]
  else if codepoint < 0x10000 then
    let byte3val := codepoint &&& 0x3F
    let byte2val := (codepoint &&& 0xFC0) >>> 6
    let byte1val := (codepoint &&& 0xF000) >>> 12
    if outbuflen < 3 then none
    else some [byte1val ||| 0xC0, byte2val ||| 0x80, byte3val ||| 0x80]
  else if codepoint < 0x200000 then
    let byte4val := codepoint &&& 0x3F
    let byte3val := (codepoint &&& 0xFC0) >>> 6
    let byte2val := (codepoint &&& 0x3F000) >>> 12
    let byte1val := (codepoint &&& 0x1C0000) >>> 18
    if outbuflen < 4 then none
    else some [byte1val ||| 0xC0, byte2val ||| 0x80, byte3val ||| 0x80,
               byte4val ||| 0x80]
  else none

/-- C `get_utf8_codepoint` (unicode.c:90-188).  `p` is the byte sequence from
the current position to the end of the input (so C's `size` is `p.length`).
Returns the decoded code point and consumed byte count, `none` for the
`return 0` paths.  The first-byte payload masks are the source's `0x1F`
for all three multi-byte forms (lines 112, 135, 169). -/
def get_utf8_codepoint (p : List Nat) : Option (Nat × Nat) :=
  match p with
  | [] => none                      -- size < 1
  | b0 :: rest =>
    if !is_utf8_start b0 then
      if b0 > 127 then none
      else some (b0, 1)
    else if (b0 &&& 0xE0) == 0xC0 && rest.length + 1 ≥ 2 then
      match rest with
      | [] => none
      | b1 :: rest2 =>
        if (b1 &&& 0xC0) != 0x80 then none
        else if rest2.length + 2 ≥ 3 &&
            ((rest2.headD 0) &&& 0xC0) == 0x80 then none
        else
          let c := ((b0 &&& 0x1F) <<< 6) + (b1 &&& 0x3F)
          if c ≤ 127 then none      -- not valid to be encoded with two bytes
          else some (c, 2)
    else if (b0 &&& 0xF0) == 0xE0 && rest.length + 1 ≥ 3 then
      match rest with
      | b1 :: b2 :: rest3 =>
        if (b1 &&& 0xC0) != 0x80 then none
        else if (b2 &&& 0xC0) != 0x80 then none
        else if rest3.length + 3 ≥ 4 &&
            ((rest3.headD 0) &&& 0xC0) == 0x80 then none
        else
          let c := ((b0 &&& 0x1F) <<< 12) + ((b1 &&& 0x3F) <<< 6) +
                   (b2 &&& 0x3F)
          if c ≤ 0x7FF then none    -- not valid to be encoded with three bytes
          else if c ≥ 0xD800 && c ≤ 0xDFFF then none  -- UTF-16 surrogates
          else some (c, 3)
      | _ => none
    else if (b0 &&& 0xF8) == 0xF0 && rest.length + 1 ≥ 4 then
      match rest with
      | b1 :: b2 :: b3 :: rest4 =>
        if (b1 &&& 0xC0) != 0x80 then none
        else if (b2 &&& 0xC0) != 0x80 then none
        else if (b3 &&& 0xC0) != 0x80 then none
        else if rest4.length + 4 ≥ 5 &&
            ((rest4.headD 0) &&& 0xC0) == 0x80 then none
        else
          let c := ((b0 &&& 0x1F) <<< 18) + ((b1 &&& 0x3F) <<< 12) +
                   ((b2 &&& 0x3F) <<< 6) + (b3 &&& 0x3F)
          if c ≤ 0xFFFF then none   -- not valid to be encoded with four bytes
          else some (c, 4)
      | _ => none
    else none

/-- The decoding loop of C `utf8_to_utf32_ex` (unicode.c:237-266), with the
output accumulation in place of the temp buffer writes.  On an invalid byte
with `surrogatereplaceinvalid` set, the byte `b` becomes code point
`0xDC80 + b` and the position advances by one; with the flag clear the
function aborts (`none`).  `fuel` bounds the iteration count so the
recursion is structural; every step consumes at least one input byte, so
the fuel `input.length` that `utf8_to_utf32_ex` passes never runs out. -/
def utf8_to_utf32_loop (surrogatereplaceinvalid : Bool) :
    Nat → List Nat → Option (List Nat)
  | _, [] => some []
  | 0, _ :: _ => none
  | fuel + 1, b :: rest =>
    match get_utf8_codepoint (b :: rest) with
    | none =>
      if !surrogatereplaceinvalid then none
      else
        match utf8_to_utf32_loop surrogatereplaceinvalid fuel rest with
        | none => none
        | some out => some ((0xDC80 + b) :: out)
    | some (c, cbytes) =>
      match utf8_to_utf32_loop surrogatereplaceinvalid fuel
          (rest.drop (cbytes - 1)) with
      | none => none
      | some out => some (c :: out)

/-- C `utf8_to_utf32_ex` (unicode.c:211-292) with the allocator collaborator
dropped (the temp buffer and the final copy do not change the decoded
content); the allocation-failure paths are not modelled, so the result is
`none` exactly on the `was_aborted_invalid` path. -/
def utf8_to_utf32_ex (input : List Nat) (surrogatereplaceinvalid : Bool) :
    Option (List Nat) :=
  utf8_to_utf32_loop surrogatereplaceinvalid input.length input

/-- C `utf8_to_utf32` (unicode.c:198-209): the `_ex` variant with
`surrogatereplaceinvalid = 1`. -/
def utf8_to_utf32 (input : List Nat) : Option (List Nat) :=
  utf8_to_utf32_ex input true

/-- C `utf32_to_utf8` (unicode.c:294-319): encodes each code point with
`write_codepoint_as_utf8`, advancing through the output buffer; `none`
models the `return 0` path. -/
def utf32_to_utf8 (input : List Nat) (outbuflen : Int) :
    Option (List Nat) :=
  match input with
  | [] => some []
  | c :: rest =>
    match write_codepoint_as_utf8 c outbuflen with
    | none => none
    | some bytes =>
      match utf32_to_utf8 rest (outbuflen - bytes.length) with
      | none => none
      | some out => some (bytes ++ out)

/-- The full round trip of claim C4: encode a code-point sequence with
`write_codepoint_as_utf8` (64 bytes of room per code point is ample), decode
the bytes with `utf8_to_utf32`, re-encode with `utf32_to_utf8`. -/
def utf8_roundtrip (cps : List Nat) : Option (List Nat) :=
  match utf32_to_utf8 cps 1024 with
  | none => none
  | some bytes =>
    match utf8_to_utf32 bytes with
    | none => none
    | some cps2 => utf32_to_utf8 cps2 1024

end Unicode

/-! ## bytecode.c: the program object model

Collaborators that bytecode.c uses but whose sources are not part of the
repository snapshot (hash.c string/int maps, debugsymbols.c, uri.c) are
modelled from the specification, with a doc comment marking each. -/

namespace Bytecode

/-- Modelled from the spec: `H64CLASS_HASH_SIZE` lives in bytecode.h, which is
not under src/.  §3.3: a fixed bucket count, "the implementation uses 64". -/
def H64CLASS_HASH_SIZE : Int := 64

/-- Modelled from the spec: `H64CLASS_MAX_METHODS` lives in bytecode.h, which
is not under src/.  §3.3: "a fixed ceiling (e.g. 2^30)". -/
def H64CLASS_MAX_METHODS : Int := 1073741824

/-- One record of a class member hashmap bucket (bytecode.h collaborator
type `h64classmemberinfo`, fields as read and written by bytecode.c). -/
structure h64classmemberinfo where
  nameid : Int
  methodorvaridx : Int
  deriving Repr, DecidableEq, Inhabited

/-- The per-class data of the program object that bytecode.c reads and
writes.  C keeps separate `*_count` fields beside unsized heap arrays; the
lists below carry their lengths, so `methods_count` is
`method_func_idx.length` and `vars_count` is `vars_global_name_idx.length`.
Buckets of `global_name_to_member_hashmap` are full allocated cell arrays
(records, the sentinel, and any cell a bucket `realloc` added that was never
initialized because the registration failed afterwards). -/
structure h64class where
  base_class_global_id : Int := -1
  method_global_name_idx : List Int := []
  method_func_idx : List Int := []
  vars_global_name_idx : List Int := []
  global_name_to_member_hashmap : List (List h64classmemberinfo) := []
  hasvarinitfunc : Bool := false
  deriving Repr, DecidableEq, Inhabited

/-- A `h64func` entry (fields of the collaborator type that bytecode.c
assigns).  The native function pointer is modelled by presence
(`cfunc_ptr`). -/
structure h64func where
  input_stack_size : Int := 0
  is_threadable : Int := 0
  iscfunc : Bool := false
  associated_class_index : Int := -1
  cfunclookup : Option String := none
  cfunc_ptr : Bool := false
  deriving Repr, DecidableEq, Inhabited

/-- A `h64globalvar` entry: zero-initialized value content (§3.1/§3.2); the
content stays untouched by every registration operation. -/
structure h64globalvar where
  content_zeroed : Bool := true
  deriving Repr, DecidableEq, Inhabited

/-- A function debug symbol (§3.4, debugsymbols.h collaborator type, fields
assigned by h64program_RegisterCFunction). -/
structure h64funcsymbol where
  name : Option String := none
  fileuri_index : Int := 0
  arg_count : Int := 0
  arg_kwarg_name : List (Option String) := []
  last_arg_is_multiarg : Bool := false
  has_self_arg : Bool := false
  global_id : Int := 0
  deriving Repr, DecidableEq, Inhabited

/-- A class debug symbol (§3.4). -/
structure h64classsymbol where
  name : Option String := none
  fileuri_index : Int := 0
  deriving Repr, DecidableEq, Inhabited

/-- A global variable debug symbol (§3.4). -/
structure h64globalvarsymbol where
  name : Option String := none
  fileuri_index : Int := 0
  is_const : Bool := false
  deriving Repr, DecidableEq, Inhabited

/-- Modelled from the spec: hash.c is not under src/.  §3.4 name→index
dictionaries; an association list with last-write-wins `set`.  `setOk = false`
models the allocation-failure return of `hash_StringMapSet`. -/
def StringMap := List (String × Nat)

/-- Modelled from the spec (hash.c not under src/): set a key. -/
def hash_StringMapSet (m : List (String × Nat)) (key : String) (v : Nat) :
    List (String × Nat) :=
  if m.any (fun e => e.1 == key) then
    m.map (fun e => if e.1 == key then (key, v) else e)
  else m ++ [(key, v)]

/-- Modelled from the spec (hash.c not under src/): look a key up. -/
def hash_StringMapGet (m : List (String × Nat)) (key : String) :
    Option Nat :=
  match m.find? (fun e => e.1 == key) with
  | none => none
  | some e => some e.2

/-- Modelled from the spec (hash.c not under src/): remove a key. -/
def hash_StringMapUnset (m : List (String × Nat)) (key : String) :
    List (String × Nat) :=
  m.filter (fun e => e.1 != key)

/-- Modelled from the spec (hash.c not under src/): integer-keyed map. -/
def hash_IntMapSet (m : List (Int × Int)) (key v : Int) :
    List (Int × Int) :=
  if m.any (fun e => e.1 == key) then
    m.map (fun e => if e.1 == key then (key, v) else e)
  else m ++ [(key, v)]

/-- Modelled from the spec (hash.c not under src/): remove an integer key. -/
def hash_IntMapUnset (m : List (Int × Int)) (key : Int) :
    List (Int × Int) :=
  m.filter (fun e => e.1 != key)

/-- A module-symbols record (§3.4).  `*_count` fields of the C struct are the
lengths of the symbol lists. -/
structure h64modulesymbols where
  index : Int := 0
  module_path : Option String := none
  library_name : Option String := none
  func_symbols : List h64funcsymbol := []
  func_name_to_entry : List (String × Nat) := []
  classes_symbols : List h64classsymbol := []
  class_name_to_entry : List (String × Nat) := []
  globalvar_symbols : List h64globalvarsymbol := []
  globalvar_name_to_entry : List (String × Nat) := []
  deriving Repr, DecidableEq, Inhabited

/-- The debug symbols aggregate (§3.4, debugsymbols.h collaborator type).
`module_symbols` holds every module record; the distinguished builtin module
is the record at position 0 (created by `h64debugsymbols_New`).
`member_descr` is the member-name interning table: the name with id `i`
sits at position `i`. -/
structure h64debugsymbols where
  fileuri : List String := []
  module_symbols : List h64modulesymbols := []
  member_descr : List String := []
  func_id_to_module_symbols_index : List (Int × Int) := []
  func_id_to_module_symbols_func_subindex : List (Int × Int) := []
  class_id_to_module_symbols_index : List (Int × Int) := []
  class_id_to_module_symbols_class_subindex : List (Int × Int) := []
  mainfile_module_path : Option String := none
  mainfileuri_index : Int := -1
  deriving Repr, DecidableEq, Inhabited

/-- The program object (§3.1; bytecode.h collaborator type `h64program`,
fields used by bytecode.c).  `func_count`, `classes_count` and
`globalvar_count` are the lengths of the corresponding lists. -/
structure h64program where
  globalvar : List h64globalvar := []
  func : List h64func := []
  classes : List h64class := []
  main_func_index : Int := -1
  globalinit_func_index : Int := -1
  symbols : h64debugsymbols := {}
  deriving Repr, DecidableEq, Inhabited

/-- Modelled from the spec: debugsymbols.c is not under src/.  Creates the
symbols aggregate with the one distinguished builtin module (§3.4, §6). -/
def h64debugsymbols_New : h64debugsymbols :=
  { module_symbols := [{ index := 0 }] }

/-- Modelled from the spec (debugsymbols.c not under src/): the
distinguished builtin module is the record at index 0. -/
def h64debugsymbols_GetBuiltinModuleIndex : Nat := 0

/-- Modelled from the spec (debugsymbols.c not under src/): resolve a module
record by `(module_path, library_name)`, creating it when absent and
`createifnotpresent` is set.  Returns the index into `module_symbols`;
`allocOk = false` models allocation failure during creation. -/
def h64debugsymbols_GetModule (symbols : h64debugsymbols)
    (module_path : String) (library_name : Option String)
    (createifnotpresent : Bool) (allocOk : Bool) :
    Option Nat × h64debugsymbols :=
  match symbols.module_symbols.findIdx?
      (fun m => m.module_path == some module_path &&
                m.library_name == library_name) with
  | some i => (some i, symbols)
  | none =>
    if !createifnotpresent then (none, symbols)
    else if !allocOk then (none, symbols)
    else
      let newIdx := symbols.module_symbols.length
      (some newIdx,
       { symbols with module_symbols := symbols.module_symbols ++
           [{ index := (newIdx : Int), module_path := some module_path,
              library_name := library_name }] })

/-- Modelled from the spec: debugsymbols.c is not under src/.  §3.4
member-name interning: a bidirectional map `member_name ⇄ member_name_id`
with monotonic id creation; returns the existing id, else appends when
`addifnotpresent` is set, else −1.  `allocOk = false` models the allocation
failure that makes the C function return −1. -/
def h64debugsymbols_MemberNameToMemberNameId (symbols : h64debugsymbols)
    (name : String) (addifnotpresent : Bool) (allocOk : Bool := true) :
    Int × h64debugsymbols :=
  match symbols.member_descr.findIdx? (fun s => s == name) with
  | some i => ((i : Int), symbols)
  | none =>
    if !addifnotpresent then (-1, symbols)
    else if !allocOk then (-1, symbols)
    else ((symbols.member_descr.length : Int),
          { symbols with member_descr := symbols.member_descr ++ [name] })

/-- The C `realloc` of a cell array to `n` cells: the first
`min n l.length` cells keep their contents, any cells beyond the old length
come back uninitialized (`junk`). -/
def reallocList {α : Type} (l : List α) (n : Nat) (junk : α) : List α :=
  l.take n ++ List.replicate (n - l.length) junk

/-- The bucket scan loop of `h64program_RegisterClassMemberEx`
(bytecode.c:183-188): walk records while `nameid >= 0`; `none` means the
name id was found (duplicate member, C `return 0`), `some k` that the
sentinel was reached after `k` records (C `buckets_count`).  Running past
the end of the allocation would be undefined behaviour in C; it cannot
happen for the sentinel-terminated buckets the program builds, and the model
treats the end of the list like the sentinel. -/
def bucketScan : List h64classmemberinfo → Int → Option Nat
  | [], _ => some 0
  | e :: rest, nameid =>
    if e.nameid ≥ 0 then
      if e.nameid == nameid then none
      else match bucketScan rest nameid with
        | none => none
        | some k => some (k + 1)
    else some 0

/-- Allocation outcomes for one `h64program_RegisterClassMemberEx` call, one
flag per allocation site, plus the (uninitialized) content of the cell a
bucket `realloc` adds. -/
structure RegisterMemberAlloc where
  nameidOk : Bool := true
  bucketReallocOk : Bool := true
  bucketJunk : h64classmemberinfo := ⟨-1, -1⟩
  methodArr1Ok : Bool := true
  methodArr2Ok : Bool := true
  varsArrOk : Bool := true
  deriving Repr, DecidableEq, Inhabited

/-- C `h64program_RegisterClassMemberEx` (bytecode.c:160-263).  Returns the
C result (0 failure / 1 success) and the updated program.  Notes kept from
the source: the bucket `realloc` and the store of the new bucket pointer
happen before the method-count check and the method/vars array reallocs, so
those failure paths leave the bucket grown by one uninitialized cell; the
bucket record discriminator at line 259 tests `func_idx > 0`, not `>= 0`. -/
def h64program_RegisterClassMemberEx (p : h64program) (class_id : Int)
    (name : String) (func_idx : Int) (alloc : RegisterMemberAlloc := {}) :
    Int × h64program :=
  let r := h64debugsymbols_MemberNameToMemberNameId p.symbols name true
    alloc.nameidOk
  let nameid := r.1
  let p := { p with symbols := r.2 }
  if nameid < 0 then (0, p)
  else
  -- assert(class_id >= 0 && class_id < p->classes_count) (line 176); a
  -- failing C assert aborts before any mutation below:
  if class_id < 0 ∨ class_id ≥ (p.classes.length : Int) then (0, p)
  else
  let cls := p.classes.getD class_id.toNat {}
  let bucketindex := Int.tmod nameid H64CLASS_HASH_SIZE
  let buckets := cls.global_name_to_member_hashmap.getD bucketindex.toNat []
  match bucketScan buckets nameid with
  | none => (0, p)          -- the name id is already in the bucket
  | some buckets_count =>
    if !alloc.bucketReallocOk then (0, p)
    else
    let new_buckets := reallocList buckets (buckets_count + 2) alloc.bucketJunk
    let cls := { cls with global_name_to_member_hashmap :=
      cls.global_name_to_member_hashmap.set bucketindex.toNat new_buckets }
    let p := { p with classes := p.classes.set class_id.toNat cls }
    -- Allocate new slot for either methods or vars:
    let step2 : Option (h64class × Nat) :=
      if func_idx ≥ 0 then
        if (cls.method_func_idx.length : Int) ≥ H64CLASS_MAX_METHODS then none
        else if !alloc.methodArr1Ok then none
        else if !alloc.methodArr2Ok then none
        else some ({ cls with
            method_global_name_idx := cls.method_global_name_idx ++ [nameid],
            method_func_idx := cls.method_func_idx ++ [func_idx] },
          cls.method_func_idx.length)
      else
        if !alloc.varsArrOk then none
        else some ({ cls with
            vars_global_name_idx := cls.vars_global_name_idx ++ [nameid] },
          cls.vars_global_name_idx.length)
    match step2 with
    | none => (0, p)
    | some (cls2, entry_idx) =>
      -- Add into buckets (lines 254-261): buckets[count+1] becomes the new
      -- sentinel, buckets[count] the new record:
      let newrec : h64classmemberinfo :=
        ⟨nameid, if func_idx > 0 then (entry_idx : Int)
                 else H64CLASS_MAX_METHODS + (entry_idx : Int)⟩
      let final_buckets :=
        (new_buckets.set (buckets_count + 1) ⟨-1, -1⟩).set buckets_count newrec
      let cls3 := { cls2 with global_name_to_member_hashmap :=
        (cls2.global_name_to_member_hashmap.set bucketindex.toNat
          final_buckets) }
      (1, { p with classes := p.classes.set class_id.toNat cls3 })

/-- The lookup loop of `h64program_LookupClassMember` (bytecode.c:274-290):
first match decides method vs variable by the `H64CLASS_MAX_METHODS`
boundary; sentinel (or, in the model, end of list) gives `(-1, -1)`.
Result pair is `(out_membervarid, out_memberfuncid)`. -/
def lookupBucket : List h64classmemberinfo → Int → Int × Int
  | [], _ => (-1, -1)
  | e :: rest, nameid =>
    if e.nameid ≥ 0 then
      if e.nameid == nameid then
        let result := e.methodorvaridx
        if result < H64CLASS_MAX_METHODS then (-1, result)
        else (result - H64CLASS_MAX_METHODS, -1)
      else lookupBucket rest nameid
    else (-1, -1)

/-- C `h64program_LookupClassMember` (bytecode.c:265-291).  Returns
`some (out_membervarid, out_memberfuncid)`.  C's `%` truncates toward zero
(`Int.tmod`), so a negative `nameid` yields `bucketindex = -1` and the read
`global_name_to_member_hashmap[bucketindex]` is out of bounds — undefined
behaviour, modelled as `none` (likewise for a class id outside the classes
array). -/
def h64program_LookupClassMember (p : h64program) (class_id nameid : Int) :
    Option (Int × Int) :=
  if class_id < 0 ∨ class_id ≥ (p.classes.length : Int) then none
  else
  let cls := p.classes.getD class_id.toNat {}
  let bucketindex := Int.tmod nameid H64CLASS_HASH_SIZE
  if bucketindex < 0 ∨
      bucketindex ≥ (cls.global_name_to_member_hashmap.length : Int) then
    none
  else
    some (lookupBucket
      (cls.global_name_to_member_hashmap.getD bucketindex.toNat []) nameid)

/-- C `h64program_LookupClassMemberByname` (bytecode.c:293-307).  The name is
looked up with `addifnotpresent = 0`.  When the name has no interned id the
code assigns `(-1, -1)` to the out parameters but the `if` body has no
`return` (lines 300-303): control falls through and
`h64program_LookupClassMember` is still called with the negative `nameid`,
and every one of its paths overwrites the out parameters — so the result is
whatever that (out-of-bounds reading) call produces. -/
def h64program_LookupClassMemberByname (p : h64program) (class_id : Int)
    (name : String) : Option (Int × Int) :=
  let r := h64debugsymbols_MemberNameToMemberNameId p.symbols name false
  h64program_LookupClassMember p class_id r.1

/-- Allocation outcome for one `bytecode_fileuriindex` call (the `realloc`
of the fileuri array; a `uri_Normalize` failure is a `none` from the
normalization collaborator). -/
structure FileuriAlloc where
  reallocOk : Bool := true
  deriving Repr, DecidableEq, Inhabited

/-- C `bytecode_fileuriindex` (bytecode.c:527-558).  `norm` is the
`uri_Normalize` collaborator (uri.c is not under src/; spec §6: a
deterministic, idempotent normalization, `none` on allocation failure).
The search loop at lines 533-540 is `int k = 0; while (k >
p->symbols->fileuri_count) { ... }`: with `k` starting at 0 and a
nonnegative count the body (the `strcmp` search) never executes, so
`fileuriindex` always stays −1 and the function always appends. -/
def bytecode_fileuriindex (p : h64program) (fileuri : String)
    (norm : String → Option String) (alloc : FileuriAlloc := {}) :
    Int × h64program :=
  match norm fileuri with
  | none => (-1, p)
  | some normalized_uri =>
    let fileuriindex : Int := -1   -- (unchanged by the dead search loop)
    if fileuriindex < 0 then
      if !alloc.reallocOk then (-1, p)
      else
        ((p.symbols.fileuri.length : Int),
         { p with symbols := { p.symbols with
             fileuri := p.symbols.fileuri ++ [normalized_uri] } })
    else (fileuriindex, p)

/-- Allocation outcomes for one `h64program_AddGlobalvar` call. -/
structure AddGlobalvarAlloc where
  globalvarReallocOk : Bool := true
  fileuriAlloc : FileuriAlloc := {}
  moduleOk : Bool := true
  symReallocOk : Bool := true
  strdupOk : Bool := true
  mapSetOk : Bool := true
  deriving Repr, DecidableEq, Inhabited

/-- `h64program_AddGlobalvar` after the fileuri step (bytecode.c:584-641).
Split out because both the `fileuri == NULL` and the `fileuri != NULL` paths
of the source continue here. -/
def h64program_AddGlobalvar_part2 (p : h64program) (name : String)
    (is_const : Bool) (fileuriindex : Int) (module_path : Option String)
    (library_name : Option String) (alloc : AddGlobalvarAlloc) :
    Int × h64program :=
  let mr : Option Nat × h64debugsymbols :=
    match module_path with
    | some mp =>
      h64debugsymbols_GetModule p.symbols mp library_name true alloc.moduleOk
    | none => (some h64debugsymbols_GetBuiltinModuleIndex, p.symbols)
  match mr.1 with
  | none => (-1, { p with symbols := mr.2 })
  | some msymIdx =>
  let p := { p with symbols := mr.2 }
  -- Add to the globalvar symbols table:
  if !alloc.symReallocOk then (-1, p)
  else
  -- (the realloc grew the table; the slot at index globalvar_count is memset
  -- and only published by the final globalvar_count++)
  if !alloc.strdupOk then
    -- globalvarsymboloom (lines 612-616): clear the unpublished symbol slot:
    (-1, p)
  else
  let msymbols := p.symbols.module_symbols.getD msymIdx {}
  let sym : h64globalvarsymbol :=
    { name := some name, fileuri_index := fileuriindex, is_const := is_const }
  -- Add globals to lookup-by-name hash table:
  if !alloc.mapSetOk then
    -- goto globalvarsymboloom; the failed set left the map unchanged:
    (-1, p)
  else
  let setno := msymbols.globalvar_symbols.length
  let msymbols2 := { msymbols with
    globalvar_name_to_entry :=
      hash_StringMapSet msymbols.globalvar_name_to_entry name setno,
    globalvar_symbols := msymbols.globalvar_symbols ++ [sym] }
  -- Add actual globalvar entry (zeroed), publish both counts:
  let p := { p with
    globalvar := p.globalvar ++ [{}],
    symbols := { p.symbols with module_symbols :=
      p.symbols.module_symbols.set msymIdx msymbols2 } }
  ((p.globalvar.length : Int) - 1, p)

/-- C `h64program_AddGlobalvar` (bytecode.c:560-642). -/
def h64program_AddGlobalvar (p : h64program) (name : String)
    (is_const : Bool) (fileuri : Option String)
    (module_path : Option String) (library_name : Option String)
    (norm : String → Option String) (alloc : AddGlobalvarAlloc := {}) :
    Int × h64program :=
  if !alloc.globalvarReallocOk then (-1, p)
  else
  -- (the realloc grew the globalvar array and the unpublished slot at index
  -- globalvar_count is memset; published entries are unchanged)
  match fileuri with
  | some f =>
    let fr := bytecode_fileuriindex p f norm alloc.fileuriAlloc
    if fr.1 < 0 then (-1, fr.2)
    else h64program_AddGlobalvar_part2 fr.2 name is_const fr.1 module_path
      library_name alloc
  | none =>
    h64program_AddGlobalvar_part2 p name is_const (-1) module_path
      library_name alloc

/-- C `h64program_New` (bytecode.c:125-158) without the corelib registration
calls (`corelib_RegisterErrorClasses` / `corelib_RegisterFuncs`; corelib/ is
not under src/): the freshly allocated, zeroed program with the distinguished
indices set to −1 and a fresh symbols aggregate.  No claim depends on the
builtin entries the corelib calls would add on top of this. -/
def h64program_New : h64program :=
  { main_func_index := -1, globalinit_func_index := -1,
    symbols := h64debugsymbols_New }

/-- Allocation outcomes for one `h64program_AddClass` call.  `bucketsOk`
covers the `H64CLASS_HASH_SIZE` one-record bucket mallocs (a failure of any
of them takes the same `classsymboloom` path and leaves the same observable
state, since the hashmap being built sits in the not-yet-published class
slot). -/
structure AddClassAlloc where
  classesReallocOk : Bool := true
  fileuriAlloc : FileuriAlloc := {}
  moduleOk : Bool := true
  symReallocOk : Bool := true
  strdupOk : Bool := true
  mapSetOk : Bool := true
  intMap1Ok : Bool := true
  intMap2Ok : Bool := true
  hashmapArrOk : Bool := true
  bucketsOk : Bool := true
  deriving Repr, DecidableEq, Inhabited

/-- The `classsymboloom` label of `h64program_AddClass` (bytecode.c:915-943):
`hash_StringMapUnset(class_name_to_entry, name)` runs even when the map set
for this registration never happened (so it can drop a pre-existing mapping
of the same name); the two `hash_IntMapUnset` calls on the class id→module
maps use key `p->func_count` (lines 921-928), not `p->classes_count`; the
hashmap allocation of the unpublished class slot is freed and the
unpublished symbol slot cleared (both invisible in the published state). -/
def addclass_classsymboloom (p : h64program) (msymIdx : Nat)
    (name : String) : Int × h64program :=
  let msymbols := p.symbols.module_symbols.getD msymIdx {}
  let msymbols := { msymbols with class_name_to_entry :=
    (hash_StringMapUnset msymbols.class_name_to_entry name) }
  let symbols := { p.symbols with module_symbols :=
    (p.symbols.module_symbols.set msymIdx msymbols) }
  let symbols := { symbols with
    class_id_to_module_symbols_index :=
      hash_IntMapUnset symbols.class_id_to_module_symbols_index
        (p.func.length : Int),
    class_id_to_module_symbols_class_subindex :=
      hash_IntMapUnset symbols.class_id_to_module_symbols_class_subindex
        (p.func.length : Int) }
  (-1, { p with symbols := symbols })

/-- `h64program_AddClass` after the fileuri step (bytecode.c:887-1004).  The
outer `fileuriindex` is always −1 here: the `if (fileuri)` block at lines
880-885 declares a shadowing local `int fileuriindex`, so the computed index
never reaches the class symbol. -/
def h64program_AddClass_part2 (p : h64program) (name : String)
    (module_path : Option String) (library_name : Option String)
    (alloc : AddClassAlloc) : Int × h64program :=
  let mr : Option Nat × h64debugsymbols :=
    match module_path with
    | some mp =>
      h64debugsymbols_GetModule p.symbols mp library_name true alloc.moduleOk
    | none => (some h64debugsymbols_GetBuiltinModuleIndex, p.symbols)
  match mr.1 with
  | none => (-1, { p with symbols := mr.2 })
  | some msymIdx =>
  let p := { p with symbols := mr.2 }
  -- Add to the class symbols table:
  if !alloc.symReallocOk then (-1, p)
  else
  if !alloc.strdupOk then addclass_classsymboloom p msymIdx name
  else
  let msymbols := p.symbols.module_symbols.getD msymIdx {}
  let sym : h64classsymbol := { name := some name, fileuri_index := -1 }
  -- Add class to lookup-by-name hash table:
  if !alloc.mapSetOk then addclass_classsymboloom p msymIdx name
  else
  let setno := msymbols.classes_symbols.length
  let msymbolsB := { msymbols with class_name_to_entry :=
    (hash_StringMapSet msymbols.class_name_to_entry name setno) }
  let p := { p with symbols := { p.symbols with module_symbols :=
    (p.symbols.module_symbols.set msymIdx msymbolsB) } }
  -- Add it to lookups from class id to debug symbols:
  if !alloc.intMap1Ok then addclass_classsymboloom p msymIdx name
  else
  let p := { p with symbols := { p.symbols with
    class_id_to_module_symbols_index :=
      (hash_IntMapSet p.symbols.class_id_to_module_symbols_index
        (p.classes.length : Int) msymbols.index) } }
  if !alloc.intMap2Ok then addclass_classsymboloom p msymIdx name
  else
  let p := { p with symbols := { p.symbols with
    class_id_to_module_symbols_class_subindex :=
      (hash_IntMapSet p.symbols.class_id_to_module_symbols_class_subindex
        (p.classes.length : Int) (msymbols.classes_symbols.length : Int)) } }
  -- Add actual class entry: the member hashmap with H64CLASS_HASH_SIZE
  -- buckets, each malloc'd as a single sentinel record:
  if !alloc.hashmapArrOk then addclass_classsymboloom p msymIdx name
  else
  if !alloc.bucketsOk then addclass_classsymboloom p msymIdx name
  else
  let hashmap : List (List h64classmemberinfo) :=
    List.replicate H64CLASS_HASH_SIZE.toNat [⟨-1, -1⟩]
  let cls : h64class :=
    { base_class_global_id := -1,
      global_name_to_member_hashmap := hashmap }
  let msymbolsC := p.symbols.module_symbols.getD msymIdx {}
  let msymbolsC := { msymbolsC with classes_symbols :=
    (msymbolsC.classes_symbols ++ [sym]) }
  let p := { p with
    classes := p.classes ++ [cls],
    symbols := { p.symbols with module_symbols :=
      (p.symbols.module_symbols.set msymIdx msymbolsC) } }
  ((p.classes.length : Int) - 1, p)

/-- C `h64program_AddClass` (bytecode.c:863-1005). -/
def h64program_AddClass (p : h64program) (name : String)
    (fileuri : Option String) (module_path : Option String)
    (library_name : Option String) (norm : String → Option String)
    (alloc : AddClassAlloc := {}) : Int × h64program :=
  if !alloc.classesReallocOk then (-1, p)
  else
  -- (the realloc grew the classes array; the unpublished slot at index
  -- classes_count is memset with base_class_global_id = -1)
  match fileuri with
  | some f =>
    -- lines 880-885: the inner `int fileuriindex` shadows the outer one:
    let fr := bytecode_fileuriindex p f norm alloc.fileuriAlloc
    if fr.1 < 0 then (-1, fr.2)
    else h64program_AddClass_part2 fr.2 name module_path library_name alloc
  | none => h64program_AddClass_part2 p name module_path library_name alloc

/-- Allocation outcomes for one `h64program_RegisterCFunction` call.
`kwargStrdupFailAt` is the index of the first failing per-argument `strdup`
in the loop at bytecode.c:773-785, if any. -/
structure RegisterCFunctionAlloc where
  funcReallocOk : Bool := true
  fileuriAlloc : FileuriAlloc := {}
  cfunclookupOk : Bool := true
  moduleOk : Bool := true
  symReallocOk : Bool := true
  nameStrdupOk : Bool := true
  kwargArrOk : Bool := true
  kwargStrdupFailAt : Option Nat := none
  mapSetOk : Bool := true
  intMap1Ok : Bool := true
  intMap2Ok : Bool := true
  memberAlloc : RegisterMemberAlloc := {}
  deriving Repr, DecidableEq, Inhabited

/-- The `funcsymboloom` label of `h64program_RegisterCFunction`
(bytecode.c:734-754): frees the lookup key, then — even when the map set for
this registration never happened — `hash_StringMapUnset(func_name_to_entry,
name)` (which can drop a pre-existing mapping of the same name), unsets both
func id→module maps at key `p->func_count`, and clears the unpublished
symbol slot. -/
def registercfunction_funcsymboloom (p : h64program) (msymIdx : Nat)
    (name : Option String) : Int × h64program :=
  let msymbols := p.symbols.module_symbols.getD msymIdx {}
  let msymbols :=
    match name with
    | some n => { msymbols with func_name_to_entry :=
        (hash_StringMapUnset msymbols.func_name_to_entry n) }
    | none => msymbols
  let symbols := { p.symbols with module_symbols :=
    (p.symbols.module_symbols.set msymIdx msymbols) }
  let symbols := { symbols with
    func_id_to_module_symbols_index :=
      hash_IntMapUnset symbols.func_id_to_module_symbols_index
        (p.func.length : Int),
    func_id_to_module_symbols_func_subindex :=
      hash_IntMapUnset symbols.func_id_to_module_symbols_func_subindex
        (p.func.length : Int) }
  (-1, { p with symbols := symbols })

/-- The publishing tail of `h64program_RegisterCFunction`
(bytecode.c:819-838): fill the function entry, set the symbol's remaining
fields, then `func_count++` / module `func_count++` publish both.  The
symbol's `fileuri_index` is −1: the outer `fileuriindex` variable was never
assigned because of the shadowing local at lines 667-672. -/
def h64program_RegisterCFunction_publish (p : h64program) (msymIdx : Nat)
    (name : Option String) (func : Bool) (cfunclookup : Option String)
    (arg_count : Int) (symArgNames : List (Option String))
    (last_is_multiarg : Bool) (is_threadable associated_class_index : Int) :
    Int × h64program :=
  let newfunc : h64func :=
    { input_stack_size :=
        arg_count + (if associated_class_index ≥ 0 then 1 else 0),
      is_threadable := is_threadable,
      iscfunc := true,
      associated_class_index := associated_class_index,
      cfunclookup := cfunclookup,
      cfunc_ptr := func }
  let sym : h64funcsymbol :=
    { name := name, fileuri_index := -1,
      has_self_arg := decide (associated_class_index ≥ 0),
      arg_count := arg_count,
      arg_kwarg_name := symArgNames,
      last_arg_is_multiarg := last_is_multiarg,
      global_id := (p.func.length : Int) }
  let msymbols := p.symbols.module_symbols.getD msymIdx {}
  let msymbols := { msymbols with func_symbols :=
    msymbols.func_symbols ++ [sym] }
  let p := { p with
    func := p.func ++ [newfunc],
    symbols := { p.symbols with module_symbols :=
      p.symbols.module_symbols.set msymIdx msymbols } }
  ((p.func.length : Int) - 1, p)

/-- `h64program_RegisterCFunction` from the name-map registration on
(bytecode.c:788-838): the lookup-by-name map set, the two func id→symbols
map sets, the class-method registration when the function is a method, and
the publishing tail. -/
def h64program_RegisterCFunction_part3 (p : h64program) (msymIdx : Nat)
    (name : Option String) (func : Bool) (cfunclookup : Option String)
    (arg_count : Int) (symArgNames : List (Option String))
    (last_is_multiarg : Bool) (is_threadable associated_class_index : Int)
    (alloc : RegisterCFunctionAlloc) : Int × h64program :=
  -- Add function to lookup-by-name hash table:
  if name.isSome && !alloc.mapSetOk then
    registercfunction_funcsymboloom p msymIdx name
  else
  let msymbols := p.symbols.module_symbols.getD msymIdx {}
  let setno := msymbols.func_symbols.length
  let p :=
    match name with
    | some n =>
      let ms := { msymbols with func_name_to_entry :=
        (hash_StringMapSet msymbols.func_name_to_entry n setno) }
      { p with symbols := { p.symbols with module_symbols :=
          (p.symbols.module_symbols.set msymIdx ms) } }
    | none => p
  -- Add it to lookups from func id to debug symbols:
  if !alloc.intMap1Ok then registercfunction_funcsymboloom p msymIdx name
  else
  let p := { p with symbols := { p.symbols with
    func_id_to_module_symbols_index :=
      (hash_IntMapSet p.symbols.func_id_to_module_symbols_index
        (p.func.length : Int) msymbols.index) } }
  if !alloc.intMap2Ok then registercfunction_funcsymboloom p msymIdx name
  else
  let p := { p with symbols := { p.symbols with
    func_id_to_module_symbols_func_subindex :=
      (hash_IntMapSet p.symbols.func_id_to_module_symbols_func_subindex
        (p.func.length : Int) (msymbols.func_symbols.length : Int)) } }
  -- Register function as class method if it is one (lines 810-817):
  if associated_class_index ≥ 0 then
    let mrc := h64program_RegisterClassMemberEx p associated_class_index
      (name.getD "") (p.func.length : Int) alloc.memberAlloc
    if mrc.1 == 0 then registercfunction_funcsymboloom mrc.2 msymIdx name
    else h64program_RegisterCFunction_publish mrc.2 msymIdx name func
      cfunclookup arg_count symArgNames last_is_multiarg is_threadable
      associated_class_index
  else
    h64program_RegisterCFunction_publish p msymIdx name func cfunclookup
      arg_count symArgNames last_is_multiarg is_threadable
      associated_class_index

/-- `h64program_RegisterCFunction` after the func-array realloc and fileuri
step (bytecode.c:674-838).  `func = true` models a non-NULL native function
pointer. -/
def h64program_RegisterCFunction_part2 (p : h64program)
    (name : Option String) (func : Bool) (arg_count : Int)
    (arg_kwarg_name : List (Option String)) (last_is_multiarg : Bool)
    (module_path : Option String) (library_name : Option String)
    (is_threadable associated_class_index : Int)
    (alloc : RegisterCFunctionAlloc) : Int × h64program :=
  -- Build the lookup key "{module_path or $$builtin}.{name}[@lib:{lib}]"
  -- (lines 674-700):
  let cfunclookup : Option String :=
    if func then
      let writemodpath :=
        match module_path with
        | none => "$$builtin"
        | some mp => if mp.length == 0 then "$$builtin" else mp
      some (writemodpath ++ "." ++ name.getD "" ++
        (match library_name with
         | some lib => if lib.length > 0 then "@lib:" ++ lib else ""
         | none => ""))
    else none
  if func && !alloc.cfunclookupOk then (-1, p)
  else
  let mr : Option Nat × h64debugsymbols :=
    match module_path with
    | some mp =>
      h64debugsymbols_GetModule p.symbols mp library_name true alloc.moduleOk
    | none => (some h64debugsymbols_GetBuiltinModuleIndex, p.symbols)
  match mr.1 with
  | none => (-1, { p with symbols := mr.2 })
  | some msymIdx =>
  let p := { p with symbols := mr.2 }
  -- Add to the func symbols table:
  if !alloc.symReallocOk then (-1, p)
  else
  -- (symbol slot at index func_count memset; name strdup'd into it)
  if name.isSome && !alloc.nameStrdupOk then
    registercfunction_funcsymboloom p msymIdx name
  else
  -- kwarg name array and per-name strdups (lines 760-786):
  if decide (arg_count > 0) && !alloc.kwargArrOk then
    registercfunction_funcsymboloom p msymIdx name
  else
  let kwargStrdupFail : Bool :=
    match alloc.kwargStrdupFailAt with
    | some i =>
      decide ((i : Int) < arg_count) && (arg_kwarg_name.getD i none).isSome
    | none => false
  if decide (arg_count > 0) && kwargStrdupFail then
    registercfunction_funcsymboloom p msymIdx name
  else
  let symArgNames : List (Option String) :=
    if arg_count > 0 then
      (List.range arg_count.toNat).map (fun i => arg_kwarg_name.getD i none)
    else []
  h64program_RegisterCFunction_part3 p msymIdx name func cfunclookup
    arg_count symArgNames last_is_multiarg is_threadable
    associated_class_index alloc

/-- C `h64program_RegisterCFunction` (bytecode.c:644-839). -/
def h64program_RegisterCFunction (p : h64program) (name : Option String)
    (func : Bool) (fileuri : Option String) (arg_count : Int)
    (arg_kwarg_name : List (Option String)) (last_is_multiarg : Bool)
    (module_path : Option String) (library_name : Option String)
    (is_threadable associated_class_index : Int)
    (norm : String → Option String)
    (alloc : RegisterCFunctionAlloc := {}) : Int × h64program :=
  if !alloc.funcReallocOk then (-1, p)
  else
  -- (the realloc grew the func array; the unpublished slot is memset)
  match fileuri with
  | some f =>
    -- lines 667-672: the inner `int fileuriindex` shadows the outer one:
    let fr := bytecode_fileuriindex p f norm alloc.fileuriAlloc
    if fr.1 < 0 then (-1, fr.2)
    else h64program_RegisterCFunction_part2 fr.2 name func arg_count
      arg_kwarg_name last_is_multiarg module_path library_name is_threadable
      associated_class_index alloc
  | none =>
    h64program_RegisterCFunction_part2 p name func arg_count arg_kwarg_name
      last_is_multiarg module_path library_name is_threadable
      associated_class_index alloc

/-- C `h64program_RegisterHorse64Function` (bytecode.c:841-861): register as
a C function with no native pointer and `is_threadable = -1`, then flip the
`iscfunc` flag of the new entry. -/
def h64program_RegisterHorse64Function (p : h64program)
    (name : Option String) (fileuri : Option String) (arg_count : Int)
    (arg_kwarg_name : List (Option String)) (last_is_multiarg : Bool)
    (module_path : Option String) (library_name : Option String)
    (associated_class_idx : Int) (norm : String → Option String)
    (alloc : RegisterCFunctionAlloc := {}) : Int × h64program :=
  let r := h64program_RegisterCFunction p name false fileuri arg_count
    arg_kwarg_name last_is_multiarg module_path library_name (-1)
    associated_class_idx norm alloc
  if r.1 ≥ 0 then
    (r.1, { r.2 with func := (r.2.func.set r.1.toNat
      { (r.2.func.getD r.1.toNat {}) with iscfunc := false }) })
  else r

/-- C `h64program_RegisterClassVariable` (bytecode.c:1007-1015): thin
wrapper around `h64program_RegisterClassMemberEx` with `func_idx = -1`. -/
def h64program_RegisterClassVariable (p : h64program) (class_id : Int)
    (name : String) (alloc : RegisterMemberAlloc := {}) : Int × h64program :=
  h64program_RegisterClassMemberEx p class_id name (-1) alloc

end Bytecode

/-! ## stack.c and vmexec.c: VM value model, stack, interpreter -/

namespace Vm

/-- GC value kinds used by the claims (gcvalue.h is a collaborator header;
only the string kind is exercised). -/
inductive h64gcvaluetype where
  | STRING
  deriving Repr, DecidableEq, Inhabited

/-- A heap GC value (gcvalue.h collaborator type, fields assigned by
vmexec.c): dual refcount and the code-point buffer of a string. -/
structure h64gcvalue where
  gtype : h64gcvaluetype := .STRING
  heapreferencecount : Int := 0
  externalreferencecount : Int := 0
  str_val : List Nat := []
  deriving Repr, DecidableEq, Inhabited

/-- The tagged value content (§3.2; bytecode.h collaborator union).  A
`GCVAL` carries the heap object id (`none` models a NULL pointer);
`CONSTPREALLOCSTR` carries its code points inline.  `FLOAT64` carries the
raw 64-bit pattern as an integer since no claim computes with floats. -/
inductive valuecontent where
  | NONEV
  | INT64 (v : Int)
  | FLOAT64 (bits : Int)
  | BOOLV (v : Int)
  | GCVAL (ptr : Option Nat)
  | CONSTPREALLOCSTR (cps : List Nat)
  deriving Repr, DecidableEq, Inhabited

/-- Modelled from the spec: the `H64VALTYPE` enumeration lives in bytecode.h
(not under src/); §3.2 lists `NONE` first, so a `memset`-zeroed value cell
reads as the NONE variant. -/
def valuecontentZero : valuecontent := .NONEV

/-- Modelled from the spec: stack.h is not under src/.  The three capacity
tunables of §4.C.3 (`ALLOC_OVERSHOOT`, `ALLOC_MAXOVERSHOOT`,
`ALLOC_EMERGENCY_MARGIN`); their concrete values are not fixed by the
sources, so the development is parametric in them. -/
structure StackTunables where
  OVERSHOOT : Nat
  MAXOVERSHOOT : Nat
  EMERGENCY_MARGIN : Nat
  deriving Repr, DecidableEq

/-- The VM value stack (§3.7; stack.h collaborator type, fields used by
stack.c and vmexec.c).  `entry` is the backing cell array as a total map:
cells at or beyond `entry_count` are allocation slack whose contents are
meaningless (C leaves them freed or uninitialized). -/
structure h64stack where
  entry_count : Nat := 0
  alloc_count : Nat := 0
  current_func_floor : Nat := 0
  entry : Nat → valuecontent := fun _ => valuecontentZero

/-- C `stack_New` (stack.c:18-25): a zeroed stack. -/
def stack_New : h64stack := {}

/-- C `stack_Shrink` (stack.c:44-62).  Frees entries from the top down to
`total_entries` (`stack_FreeEntry`/`valuecontent_Free` release owned
payloads but do not modify the cell), sets `entry_count`, then — the
condition at line 51 is `alloc_count + ALLOC_MAXOVERSHOOT > entry_count`,
which holds whenever the allocation is at least the entry count — reallocs
the array to `entry_count + ALLOC_OVERSHOOT` cells (`reallocOk = false`
models the realloc failing, which just returns). -/
def stack_Shrink (tun : StackTunables) (st : h64stack)
    (total_entries : Nat) (reallocOk : Bool) : h64stack :=
  let i := if total_entries ≤ st.entry_count then total_entries
           else st.entry_count
  let st := { st with entry_count := i }
  if st.alloc_count + tun.MAXOVERSHOOT > st.entry_count then
    if !reallocOk then st
    else { st with alloc_count := st.entry_count + tun.OVERSHOOT }
  else st

/-- The tail of C `stack_ToSize` (stack.c:119-131), after the grow block:
shrink when the target is below the entry count, otherwise zero-fill the
new cells (`memset`, giving `valuecontentZero`) and set the entry count.
Split out because all three exits of the grow block fall through to it. -/
def stack_ToSize_rest (tun : StackTunables) (st : h64stack)
    (total_entries : Nat) (shrinkOk : Bool) : Bool × h64stack :=
  if total_entries < st.entry_count then
    -- Shrink or be done:
    (true, stack_Shrink tun st total_entries shrinkOk)
  else
    -- assert(st->alloc_count > total_entries); zero-fill the new cells:
    (true, { st with
      entry := (fun k =>
        if st.entry_count ≤ k ∧ k < total_entries then valuecontentZero
        else st.entry k),
      entry_count := total_entries })

/-- C `stack_ToSize` (stack.c:92-132).  `growOk`/`shrinkOk` are the
outcomes of the grow realloc and of the realloc inside `stack_Shrink`.  The
grow failure returns 0 unless the emergency margin is in use and the
current allocation already covers `total_entries`; every other exit of the
grow block falls through to `stack_ToSize_rest`. -/
def stack_ToSize (tun : StackTunables) (st : h64stack) (total_entries : Nat)
    (can_use_emergency_margin : Bool) (growOk shrinkOk : Bool) :
    Bool × h64stack :=
  let alloc_needed_margin :=
    if can_use_emergency_margin then 0 else tun.EMERGENCY_MARGIN
  -- Grow if needed:
  if st.alloc_count < total_entries + alloc_needed_margin then
    if !growOk then
      if !can_use_emergency_margin ∨ total_entries > st.alloc_count then
        (false, st)
      else stack_ToSize_rest tun st total_entries shrinkOk
    else
      stack_ToSize_rest tun
        { st with alloc_count :=
            total_entries + alloc_needed_margin + tun.OVERSHOOT }
        total_entries shrinkOk
  else stack_ToSize_rest tun st total_entries shrinkOk

/-- One `stack_ToSize` call of a claim-C6 call sequence: the requested size,
the `can_use_emergency_margin` flag, and the two realloc outcomes. -/
structure ToSizeCall where
  n : Nat
  emergency : Bool := false
  growOk : Bool := true
  shrinkOk : Bool := true
  deriving Repr, DecidableEq, Inhabited

/-- Fold a sequence of `stack_ToSize` calls over a stack (claim C6). -/
def stack_applyCalls (tun : StackTunables) (st : h64stack)
    (calls : List ToSizeCall) : h64stack :=
  calls.foldl
    (fun s c => (stack_ToSize tun s c.n c.emergency c.growOk c.shrinkOk).2) st

/-- Modelled from the spec: poolalloc.c is not under src/.  §3.7/§4.C.3: a
pool of fixed-size `h64gcvalue` allocations; object ids index `objects`. -/
structure poolalloc where
  objects : List h64gcvalue := []
  deriving Repr, DecidableEq, Inhabited

/-- Modelled from the spec (poolalloc.c not under src/): allocate one pool
object, returning its id.  `heap = none` stands for an invalid pool pointer
(in claim C5 the uninitialized local of vmexec.c:82): no object can come
from it, so the allocation yields NULL (`none`), which is exactly the
case the caller's `if (!vc->ptr_value)` guards. -/
def poolalloc_malloc (heap : Option poolalloc) :
    Option (Nat × poolalloc) :=
  match heap with
  | none => none
  | some h => some (h.objects.length, { h with objects := h.objects ++ [{}] })

/-- Modelled from the spec: stack.h is not under src/.  `STACK_ENTRY(stack,
no)` addresses the cell at `no` slots above the current function floor
(§3.7). -/
def STACK_ENTRY_index (st : h64stack) (slot : Nat) : Nat :=
  slot + st.current_func_floor

/-- The bytecode instructions as far as vmexec.c implements them.  Only
`setconst` has a real handler (vmexec.c:94-129); every other opcode's
handler prints "... not implemented" and returns 0 (lines 130-205), as does
`inst_invalid`; they are collapsed into `notimplemented` with the type tag
kept. -/
inductive h64instruction where
  | setconst (slot : Nat) (content : valuecontent)
  | notimplemented (itype : Nat)
  deriving Repr, DecidableEq, Inhabited

/-- A VM thread (vmexec.h collaborator type, fields used by vmexec.c).
`heap` is the pool created by `vmthread_New`; C's `stack` field is a pointer
left NULL by `vmthread_New` — the claims install a stack explicitly. -/
structure h64vmthread where
  stack : h64stack := {}
  heap : Option poolalloc := none

/-- C `vmthread_New` (vmexec.c:14-26): zeroed thread with a fresh pool;
the stack pointer stays NULL (here: the default empty stack). -/
def vmthread_New : h64vmthread := { heap := some {} }

/-- The dispatch loop of `vmthread_RunFunction` (vmexec.c:84-229) over an
instruction list.  `heapLocal` is the function's local `heap` variable;
`stringsOk` the outcome of the `vmstrings_Set` buffer allocation
(vmstrings is a collaborator not under src/).  The C loop has no
end-of-stream check (it dispatches on whatever bytes follow); the model
stops at the end of the list, which no claim reaches.  For the `setconst`
handler, note the write order of the source: the slot's type is set to
`GCVAL` and its pointer to the `poolalloc_malloc` result *before* the NULL
check, so the out-of-memory path leaves the slot as a GCVAL with a NULL
pointer and returns 0 (`triggeroom`). -/
def vmexec_runInstructions (vmthread : h64vmthread)
    (heapLocal : Option poolalloc) (stringsOk : Bool) :
    List h64instruction → Int × h64vmthread × Option poolalloc
  | [] => (1, vmthread, heapLocal)
  | .notimplemented _ :: _ => (0, vmthread, heapLocal)
  | .setconst slot content :: rest =>
    let stack := vmthread.stack
    let idx := STACK_ENTRY_index stack slot
    -- valuecontent_Free(vc): releases the old payload, cell overwritten next
    match content with
    | .CONSTPREALLOCSTR cps =>
      match poolalloc_malloc heapLocal with
      | none =>
        let stack := { stack with entry := (fun k =>
          if k == idx then valuecontent.GCVAL none else stack.entry k) }
        (0, { vmthread with stack := stack }, heapLocal)
      | some (ptr, heap2) =>
        if !stringsOk then
          -- vmstrings_Set failed: poolalloc_free the object, ptr := NULL:
          let stack := { stack with entry := (fun k =>
            if k == idx then valuecontent.GCVAL none else stack.entry k) }
          (0, { vmthread with stack := stack }, some heap2)
        else
          let gcval : h64gcvalue :=
            { gtype := .STRING, heapreferencecount := 0,
              externalreferencecount := 1, str_val := cps }
          let heap3 := { heap2 with objects := heap2.objects.set ptr gcval }
          let stack := { stack with entry := (fun k =>
            if k == idx then valuecontent.GCVAL (some ptr)
            else stack.entry k) }
          vmexec_runInstructions { vmthread with stack := stack }
            (some heap3) stringsOk rest
    | c =>
      -- memcpy(vc, &inst->content, ...); a copied GCVAL gets its external
      -- refcount set to 1 through the pointer (the object lives in the
      -- thread's pool):
      let stack := { stack with entry := (fun k =>
        if k == idx then c else stack.entry k) }
      let vmthread := { vmthread with stack := stack }
      let vmthread :=
        match c with
        | .GCVAL (some ptr) =>
          match vmthread.heap with
          | some h =>
            { vmthread with heap := some { h with objects :=
                (h.objects.set ptr
                  { (h.objects.getD ptr {}) with
                    externalreferencecount := 1 }) } }
          | none => vmthread
        | _ => vmthread
      vmexec_runInstructions vmthread heapLocal stringsOk rest

/-- C `vmthread_RunFunction` (vmexec.c:69-230) on a function body given as
an instruction list.  Line 82 of the source is `poolalloc *heap = heap;`:
the local pool pointer is initialized from itself — an uninitialized read —
and `vmthread->heap` is never read anywhere in the function.  The
indeterminate local is modelled as the invalid pool `none`. -/
def vmthread_RunFunction (vmthread : h64vmthread)
    (insts : List h64instruction) (stringsOk : Bool := true) :
    Int × h64vmthread × Option poolalloc :=
  vmexec_runInstructions vmthread none stringsOk insts

end Vm

/-! ## compiler/scoperesolver.c -/

namespace Scoperesolver

open Bytecode

/-- The expression kinds the resolver distinguishes (§6; ast.h is a
collaborator header). -/
inductive h64expressiontype where
  | VARDEF_STMT
  | CLASSDEF_STMT
  | FUNCDEF_STMT
  | INLINEFUNCDEF
  | IMPORT_STMT
  | FOR_STMT
  | IDENTIFIERREF
  | LITERAL
  | BINARYOP
  | CALL
  | OTHER
  deriving Repr, DecidableEq, Inhabited

/-- Modelled from the spec: the storage-kind enumeration (§3.5) lives in a
header not under src/; the development depends only on the kinds being
distinct. -/
def H64STORETYPE_GLOBALFUNCSLOT : Int := 1

/-- Modelled from the spec (§3.5), see `H64STORETYPE_GLOBALFUNCSLOT`. -/
def H64STORETYPE_GLOBALCLASSSLOT : Int := 2

/-- Modelled from the spec (§3.5), see `H64STORETYPE_GLOBALFUNCSLOT`. -/
def H64STORETYPE_GLOBALVARSLOT : Int := 3

/-- A storage reference (§3.5). -/
structure storageref where
  type : Int := 0
  id : Int := 0
  deriving Repr, DecidableEq, Inhabited

/-- What a vardef's initializer expression is, as far as `isnullvardef`
inspects it (scoperesolver.c:33-39): absent, the literal `none` constant,
or anything else. -/
inductive vardefvalue where
  | absent
  | literalNone
  | otherExpr
  deriving Repr, DecidableEq, Inhabited

/-- Function definition argument data read by the resolver (ast.h
collaborator; `arg_value_present i` models `arg_value[i] != NULL`, i.e. the
argument has a default value). -/
structure funcargs where
  arg_count : Int := 0
  arg_name : List (Option String) := []
  arg_value_present : List Bool := []
  last_posarg_is_multiarg : Bool := false
  deriving Repr, DecidableEq, Inhabited

/-- An AST expression node, with the fields
`scoperesolver_ComputeItemStorage` reads and writes.  Nodes live in an
indexed store and `parent` is an index into it.  `scope_is_global` is the
`is_global` flag of the scope `ast_GetScope` returns for this node
(asthelpers.c is a collaborator; the claims use nodes whose scope exists). -/
structure h64expression where
  etype : h64expressiontype := .OTHER
  parent : Option Nat := none
  line : Int := 0
  column : Int := 0
  scope_is_global : Bool := true
  storage_set : Bool := false
  storage_ref : storageref := {}
  vardef_identifier : String := ""
  vardef_is_const : Bool := false
  vardef_value : vardefvalue := .absent
  classdef_name : String := ""
  funcdef_name : Option String := none
  funcdef_args : funcargs := {}
  funcdef_bytecode_func_id : Int := -1
  deriving Repr, DecidableEq, Inhabited

/-- Modelled from the spec: result.h/result.c are not under src/.  One
diagnostic record (§7: kind, message, file URI, line, column). -/
structure resultmessage where
  mtype : Int := 0
  message : String := ""
  fileuri : Option String := none
  line : Int := 0
  column : Int := 0
  deriving Repr, DecidableEq, Inhabited

/-- Modelled from the spec (§7): the ERROR message kind; the development
depends only on which kind a diagnostic carries. -/
def H64MSG_ERROR : Int := 0

/-- Modelled from the spec (result.h not under src/): a result-message
aggregator with its `success` flag (§7). -/
structure h64resultmsg where
  success : Bool := true
  messages : List resultmessage := []
  deriving Repr, DecidableEq, Inhabited

/-- Modelled from the spec (result.c not under src/): append a diagnostic
(§7 structural diagnostics); `none` models its allocation failure. -/
def result_AddMessage (msg : h64resultmsg) (mtype : Int) (message : String)
    (fileuri : Option String) (line column : Int) (allocOk : Bool) :
    Option h64resultmsg :=
  if !allocOk then none
  else some { msg with messages := msg.messages ++
    [{ mtype := mtype, message := message, fileuri := fileuri,
       line := line, column := column }] }

/-- Modelled from the spec (result.c not under src/): copy the source
aggregator's messages onto the target (the resolver sets the success flags
itself right after each call); `none` models allocation failure. -/
def result_TransferMessages (srcmsg dstmsg : h64resultmsg)
    (allocOk : Bool) : Option h64resultmsg :=
  if !allocOk then none
  else some { dstmsg with messages := dstmsg.messages ++ srcmsg.messages }

/-- The state `scoperesolver_ComputeItemStorage` works on: the AST's
expression store, the program object, the AST attributes it reads
(fileuri, module path, library name), and the AST's and the project's
result-message aggregators. -/
structure resolverstate where
  exprs : List h64expression := []
  program : h64program := {}
  ast_fileuri : String := ""
  ast_module_path : Option String := none
  ast_library_name : Option String := none
  ast_resultmsg : h64resultmsg := {}
  project_resultmsg : h64resultmsg := {}
  deriving Repr, Inhabited

/-- Allocation outcomes for one `scoperesolver_ComputeItemStorage` call
(shared by its recursive self-call on the owning class). -/
structure CISAlloc where
  addGlobalvar : AddGlobalvarAlloc := {}
  addClass : AddClassAlloc := {}
  registerMember : RegisterMemberAlloc := {}
  registerFunc : RegisterCFunctionAlloc := {}
  varinitFunc : RegisterCFunctionAlloc := {}
  kwargArrOk : Bool := true
  kwargStrdupFailAt : Option Nat := none
  addMessageOk : Bool := true
  transferOk : Bool := true
  mainPathStrdupOk : Bool := true
  mainFileuriAlloc : FileuriAlloc := {}
  deriving Repr, Inhabited

/-- C `isnullvardef` (scoperesolver.c:33-39). -/
def isnullvardef (e : h64expression) : Bool :=
  if e.etype != .VARDEF_STMT then false
  else match e.vardef_value with
    | .absent => true
    | .literalNone => true
    | .otherExpr => false

/-- The owning-class parent walk of `scoperesolver_ComputeItemStorage`
(scoperesolver.c:143-153 and 199-209): from `start` upward; a class def
stops the walk with that class, a (inline) function def or the root stops
it with no class.  `fuel` bounds the walk (parent chains of real ASTs are
finite; `none` = fuel ran out, unreachable for those). -/
def surroundingClassWalk (exprs : List h64expression) :
    Nat → Option Nat → Option (Option Nat)
  | _, none => some none
  | 0, some _ => none
  | fuel + 1, some i =>
    let e := exprs.getD i {}
    if e.etype == .CLASSDEF_STMT then some (some i)
    else if e.etype == .FUNCDEF_STMT || e.etype == .INLINEFUNCDEF then
      some none
    else surroundingClassWalk exprs fuel e.parent

/-- The kwarg-name array `scoperesolver_ComputeItemStorage` builds for a
function definition (scoperesolver.c:235-265): one entry per argument,
a copy of the argument name exactly for arguments that carry a default
value. -/
def buildKwargNames (args : funcargs) : List (Option String) :=
  (List.range args.arg_count.toNat).map (fun i =>
    if args.arg_value_present.getD i false then args.arg_name.getD i none
    else none)

/-- Whether the kwarg-copy loop of scoperesolver.c:247-265 hits a failing
`strdup` (at the oracle's index, which must be a copied argument). -/
def kwargStrdupFails (args : funcargs) (failAt : Option Nat) : Bool :=
  match failAt with
  | none => false
  | some i =>
    decide ((i : Int) < args.arg_count) &&
    (args.arg_value_present.getD i false)

/-- C `scoperesolver_ComputeItemStorage` (scoperesolver.c:92-347).  Returns
`(result, outofmemory, state)` for the C `int` result and the
`*outofmemory` out-parameter (meaningful on failure, as in the callers).
`fuel` bounds the recursion on the owning class (C recurses on a parent
node; parent chains of real ASTs are finite) and the parent walks.
The project loader argument of the C function is unused on every path
modelled here.  Stage order as in the source: global vardef/classdef
storage (lines 102-140, the vardef branch falls through, the classdef
branch returns), class-member vardefs (141-194), function definitions
(195-345). -/
def scoperesolver_ComputeItemStorage (st : resolverstate) (exprIdx : Nat)
    (extract_main : Bool) (norm : String → Option String)
    (alloc : CISAlloc) : Nat → Bool × Bool × resolverstate
  | 0 => (false, false, st)
  | fuel + 1 =>
  let expr := st.exprs.getD exprIdx {}
  -- Assign global variables + classes storage (lines 102-140):
  let stage1 : Option (Bool × Bool × resolverstate) × resolverstate :=
    if expr.scope_is_global || expr.etype == .CLASSDEF_STMT then
      if expr.storage_set then (some (true, false, st), st)
      else if expr.etype == .VARDEF_STMT then
        let r := h64program_AddGlobalvar st.program expr.vardef_identifier
          expr.vardef_is_const (some st.ast_fileuri) st.ast_module_path
          st.ast_library_name norm alloc.addGlobalvar
        if r.1 < 0 then
          (some (false, true, { st with program := r.2 }), st)
        else
          let expr2 :=
            { expr with
              storage_set := true,
              storage_ref := { type := H64STORETYPE_GLOBALVARSLOT,
                               id := r.1 } }
          let st2 :=
            { st with
              program := r.2,
              exprs := st.exprs.set exprIdx expr2 }
          (none, st2)     -- the vardef branch falls through
      else if expr.etype == .CLASSDEF_STMT then
        let r := h64program_AddClass st.program expr.classdef_name
          (some st.ast_fileuri) st.ast_module_path st.ast_library_name norm
          alloc.addClass
        if r.1 < 0 then
          (some (false, true, { st with program := r.2 }), st)
        else
          let expr2 :=
            { expr with
              storage_set := true,
              storage_ref := { type := H64STORETYPE_GLOBALCLASSSLOT,
                               id := r.1 } }
          (some (true, false,
            { st with
              program := r.2,
              exprs := st.exprs.set exprIdx expr2 }), st)
      else (none, st)
    else (none, st)
  match stage1 with
  | (some out, _) => out
  | (none, st) =>
  let expr := st.exprs.getD exprIdx {}
  -- Handle class members (lines 141-194):
  let stage2 : Option (Bool × Bool × resolverstate) × resolverstate :=
    if !expr.scope_is_global && expr.etype == .VARDEF_STMT then
      match surroundingClassWalk st.exprs (fuel + 1) expr.parent with
      | none => (some (false, false, st), st)
      | some none => (none, st)
      | some (some oc) =>
        let afterOwn : Option (Bool × Bool × resolverstate) :=
          if !(st.exprs.getD oc {}).storage_set then
            let inner := scoperesolver_ComputeItemStorage st oc extract_main
              norm alloc fuel
            if !inner.1 then some (false, inner.2.1, inner.2.2) else
              some (true, false, inner.2.2)
          else some (true, false, st)
        match afterOwn with
        | some (false, oom, st) => (some (false, oom, st), st)
        | some (_, _, st) =>
          let owningclassindex := (st.exprs.getD oc {}).storage_ref.id
          let r := h64program_RegisterClassVariable st.program
            owningclassindex expr.vardef_identifier alloc.registerMember
          if r.1 == 0 then
            (some (false, true, { st with program := r.2 }), st)
          else
            let st := { st with program := r.2 }
            if !(isnullvardef expr) &&
                !((st.program.classes.getD owningclassindex.toNat
                  {}).hasvarinitfunc) then
              let rv := h64program_RegisterHorse64Function st.program
                (some "$$varinit") (some st.ast_fileuri) 0 [] false
                st.ast_module_path st.ast_library_name owningclassindex
                norm alloc.varinitFunc
              if rv.1 < 0 then
                (some (false, true, { st with program := rv.2 }), st)
              else (some (true, false, { st with program := rv.2 }), st)
            else (some (true, false, st), st)
        | none => (some (false, false, st), st)
    else (none, st)
  match stage2 with
  | (some out, _) => out
  | (none, st) =>
  let expr := st.exprs.getD exprIdx {}
  -- Add functions to bytecode (lines 195-345):
  if expr.etype == .FUNCDEF_STMT || expr.etype == .INLINEFUNCDEF then
    match surroundingClassWalk st.exprs (fuel + 1) expr.parent with
    | none => (false, false, st)
    | some ocOpt =>
      let afterOwn : Bool × Bool × resolverstate :=
        match ocOpt with
        | some oc =>
          if !(st.exprs.getD oc {}).storage_set then
            let inner := scoperesolver_ComputeItemStorage st oc extract_main
              norm alloc fuel
            if !inner.1 then (false, inner.2.1, inner.2.2)
            else (true, false, inner.2.2)
          else (true, false, st)
        | none => (true, false, st)
      if !afterOwn.1 then (false, afterOwn.2.1, afterOwn.2.2)
      else
      let st := afterOwn.2.2
      let owningclassindex : Int :=
        match ocOpt with
        | some oc => (st.exprs.getD oc {}).storage_ref.id
        | none => -1
      -- Assemble names and parameter info (lines 232-266):
      if decide (expr.funcdef_args.arg_count > 0) && !alloc.kwargArrOk then
        (false, true, st)
      else
      if kwargStrdupFails expr.funcdef_args alloc.kwargStrdupFailAt then
        (false, true, st)
      else
      let kwarg_names := buildKwargNames expr.funcdef_args
      -- Register actual bytecode program entry for function (268-287):
      let r := h64program_RegisterHorse64Function st.program
        expr.funcdef_name (some st.ast_fileuri)
        expr.funcdef_args.arg_count kwarg_names
        expr.funcdef_args.last_posarg_is_multiarg st.ast_module_path
        st.ast_library_name owningclassindex norm alloc.registerFunc
      if r.1 < 0 then (false, true, { st with program := r.2 })
      else
      let bytecode_func_id := r.1
      let st := { st with program := r.2 }
      let afterMain : Bool × resolverstate :=
        if expr.scope_is_global then
          let expr2 :=
            { expr with
              storage_set := true,
              storage_ref := { type := H64STORETYPE_GLOBALFUNCSLOT,
                               id := bytecode_func_id } }
          let st := { st with exprs := st.exprs.set exprIdx expr2 }
          if expr.funcdef_name == some "main" && extract_main then
            if st.program.main_func_index ≥ 0 then
              -- duplicate main (lines 303-323):
              match result_AddMessage st.ast_resultmsg H64MSG_ERROR
                  "unexpected duplicate main func found"
                  (some st.ast_fileuri) expr.line expr.column
                  alloc.addMessageOk with
              | none => (false, st)
              | some amsg =>
                let st :=
                  { st with ast_resultmsg :=
                    { amsg with success := false } }
                match result_TransferMessages st.ast_resultmsg
                    st.project_resultmsg alloc.transferOk with
                | none => (false, st)
                | some pmsg =>
                  (true,
                   { st with project_resultmsg :=
                     { pmsg with success := false } })
            else
              -- first main (lines 324-341): main_func_index is assigned
              -- before the module-path strdup, which is before the fileuri
              -- intern, so the oom returns keep the earlier assignments:
              let st :=
                { st with program := { st.program with
                    main_func_index := bytecode_func_id } }
              if !alloc.mainPathStrdupOk then (false, st)
              else
                let st :=
                  { st with program := { st.program with
                      symbols := { st.program.symbols with
                        mainfile_module_path := st.ast_module_path } } }
                let fr := bytecode_fileuriindex st.program st.ast_fileuri
                  norm alloc.mainFileuriAlloc
                let st :=
                  { st with program := { fr.2 with
                      symbols := { fr.2.symbols with
                        mainfileuri_index := fr.1 } } }
                if fr.1 < 0 then (false, st) else (true, st)
          else (true, st)
        else (true, st)
      match afterMain with
      | (false, st) =>
        -- the oom paths inside the main handling (308-315, 317-322,
        -- 330-333, 337-340) all report out-of-memory:
        (false, true, st)
      | (true, st) =>
        let exprLatest := st.exprs.getD exprIdx {}
        (true, false,
         { st with exprs := (st.exprs.set exprIdx
           { exprLatest with
             funcdef_bytecode_func_id := bytecode_func_id }) })
  else (true, false, st)

/-! ### scoperesolver_BuildASTGlobalStorage (claim C8)

The per-file state this claim is about: which ASTs get the global-storage
transform applied (`asttransform_Apply` with
`_resolvercallback_BuildGlobalStorage_visit_out`) and with which
`extract_main` flag.  The per-expression work of that transform is the
separately-embedded `scoperesolver_ComputeItemStorage`; here each
application is recorded as an `(astId, extract_main)` event, the
observable the claim speaks about.  Diagnostics are tracked through the
success flags only. -/

/-- An import statement as `scoperesolver_BuildASTGlobalStorage` reads it
(ast.h collaborator fields). -/
structure importstmtinfo where
  import_elements : List String := []
  source_library : Option String := none
  referenced_ast : Option Nat := none
  deriving Repr, DecidableEq, Inhabited

/-- A `scope.definitionref` entry's declaration expression: the build loops
only distinguish import statements from everything else. -/
inductive scopedefexpr where
  | importstmt (imp : importstmtinfo)
  | otherdecl
  deriving Repr, DecidableEq, Inhabited

/-- One AST as `scoperesolver_BuildASTGlobalStorage` sees it. -/
structure astrec where
  fileuri : String := ""
  module_path : Option String := none
  library_name : Option String := none
  global_storage_built : Bool := false
  resultmsg_success : Bool := true
  defs : List scopedefexpr := []
  deriving Repr, DecidableEq, Inhabited

/-- State threaded through `scoperesolver_BuildASTGlobalStorage`: the AST
store, the log of storage-transform applications, and the project success
flag. -/
structure buildstate where
  store : List astrec := []
  applied : List (Nat × Bool) := []
  project_success : Bool := true
  deriving Repr, DecidableEq, Inhabited

/-- `compileproject_ResolveImport` outcomes (compileproject.c is a
collaborator not under src/, §6 project loader interface). -/
inductive ResolveImportResult where
  | ok (path : String)
  | notfound
  | oom
  deriving Repr, DecidableEq, Inhabited

/-- `compileproject_GetAST` outcomes (§6: parse the file at a URI into an
AST; a collaborator not under src/). -/
inductive GetASTResult where
  | ok (astId : Nat)
  | err
  deriving Repr, DecidableEq, Inhabited

/-- The project-loader collaborators of
`scoperesolver_BuildASTGlobalStorage` (§6; compileproject.c not under
src/).  `deriveModulePath` condenses the module-path derivation block of
scoperesolver.c:1028-1133 (GetFileSubProjectPath, URIRelPath, the `.h64`
strip, `filesys_Normalize`, the dots check and separator replacement,
§4.B.1): no claim depends on its internals and every claim scenario has
`module_path` already set, which skips the block. -/
structure BuildEnv where
  resolveImport : Nat → List String → Option String → ResolveImportResult
  getAST : String → GetASTResult
  deriveModulePath : Nat → Option (String × Option String)

/-- Set an AST's `resultmsg.success` flag in the store. -/
def setASTSuccess (st : buildstate) (astId : Nat) (v : Bool) : buildstate :=
  { st with store := (st.store.set astId
    { (st.store.getD astId {}) with resultmsg_success := v }) }

/-- Record a loaded import: `expr->importstmt.referenced_ast = ast`
(scoperesolver.c:1195-1198). -/
def setImportReferenced (st : buildstate) (astId defIdx b : Nat) :
    buildstate :=
  let ast := st.store.getD astId {}
  let defs := ast.defs.set defIdx
    (match ast.defs.getD defIdx .otherdecl with
     | .importstmt imp => .importstmt { imp with referenced_ast := some b }
     | .otherdecl => .otherdecl)
  { st with store := st.store.set astId { ast with defs := defs } }

/-- The import-loading loop of `scoperesolver_BuildASTGlobalStorage`
(scoperesolver.c:1136-1211), iterating the scope's definition refs.  An
imported statement with a referenced AST whose fileuri is nonempty is
skipped;
otherwise the import is resolved and its AST requested: a resolver
out-of-memory returns 0; "not found" and a failing GetAST attach
diagnostics, clear the AST's success flag, and the loop continues. -/
def loadImportsLoop (env : BuildEnv) (st : buildstate) (astId : Nat) :
    List Nat → Bool × buildstate
  | [] => (true, st)
  | i :: rest =>
    let ast := st.store.getD astId {}
    match ast.defs.getD i .otherdecl with
    | .otherdecl => loadImportsLoop env st astId rest
    | .importstmt imp =>
      if (match imp.referenced_ast with
          | some b => decide ((st.store.getD b {}).fileuri.length > 0)
          | none => false) then
        loadImportsLoop env st astId rest
      else
        match env.resolveImport astId imp.import_elements
            imp.source_library with
        | .oom => (false, st)
        | .notfound =>
          -- "couldn't resolve import" diagnostic, success = 0; the
          -- subsequent GetAST on the NULL path fails with another
          -- diagnostic; referenced_ast stays NULL:
          loadImportsLoop env (setASTSuccess st astId false) astId rest
        | .ok path =>
          match env.getAST path with
          | .err =>
            loadImportsLoop env (setASTSuccess st astId false) astId rest
          | .ok b =>
            loadImportsLoop env (setImportReferenced st astId i b) astId
              rest

/-- The body of C `scoperesolver_BuildASTGlobalStorage`
(scoperesolver.c:1018-1211 and 1245-1258) without its recursive block:
return early when already built; mark built even if failing; derive the
module path when missing; load the imports; apply the global-storage
transform (recorded in `applied`).  The source's recursive block always
calls the function with `recursive = 0` (line 1232), so the callee never
enters its own recursive block and is exactly this body;
`buildASTGlobalStorage` below puts the two together. -/
def buildOne (env : BuildEnv) (st : buildstate) (astId : Nat)
    (extract_main : Bool) : Bool × buildstate :=
  let ast := st.store.getD astId {}
  if ast.global_storage_built then (true, st)
  else
  -- Mark done even if we fail:
  let st := { st with store := (st.store.set astId
    { ast with global_storage_built := true }) }
  -- Set module path if missing:
  let mpStep : Bool × buildstate :=
    if (st.store.getD astId {}).module_path.isNone then
      match env.deriveModulePath astId with
      | none => (false, st)
      | some (mp, lib) =>
        (true, { st with store := (st.store.set astId
          { (st.store.getD astId {}) with
            module_path := some mp, library_name := lib }) })
    else (true, st)
  if !mpStep.1 then (false, mpStep.2)
  else
  let st := mpStep.2
  -- First, make sure all imports are loaded up:
  match loadImportsLoop env st astId
      (List.range (st.store.getD astId {}).defs.length) with
  | (false, st) => (false, st)
  | (true, st) =>
  -- Build global storage (asttransform_Apply with the storage visitor):
  (true, { st with applied := st.applied ++ [(astId, extract_main)] })

/-- The recursive block of `scoperesolver_BuildASTGlobalStorage`
(scoperesolver.c:1213-1243): for every import with a referenced AST, call
`scoperesolver_BuildASTGlobalStorage` on it with `recursive = 0` and a
resolve-info copy whose `extract_main` is 0 (line 1229) — with
`recursive = 0` that call is `buildOne` — then transfer its messages to the
project aggregator (modelled as a no-op on the success flags). -/
def recurseImportsLoop (env : BuildEnv) (st : buildstate) (astId : Nat) :
    List Nat → Bool × buildstate
  | [] => (true, st)
  | i :: rest =>
    let ast := st.store.getD astId {}
    match ast.defs.getD i .otherdecl with
    | .otherdecl => recurseImportsLoop env st astId rest
    | .importstmt imp =>
      match imp.referenced_ast with
      | none => recurseImportsLoop env st astId rest
      | some b =>
        match buildOne env st b false with
        | (false, st) => (false, st)
        | (true, st) => recurseImportsLoop env st astId rest

/-- C `scoperesolver_BuildASTGlobalStorage` (scoperesolver.c:1018-1259):
the non-recursive body, then — when `recursive` is set — the recursive
block over the scope's definition refs. -/
def buildASTGlobalStorage (env : BuildEnv) (st : buildstate) (astId : Nat)
    (recursive : Bool) (extract_main : Bool) : Bool × buildstate :=
  match buildOne env st astId extract_main with
  | (false, st) => (false, st)
  | (true, st) =>
    -- Do recursive handling if asked for:
    if recursive then
      recurseImportsLoop env st astId
        (List.range (st.store.getD astId {}).defs.length)
    else (true, st)

end Scoperesolver

/-! ## Derived predicates and concrete evaluation scenarios -/

namespace Bytecode

/-- The records of a bucket before its first sentinel: exactly what the
scan/lookup loops can reach. -/
def bucketRecords (b : List h64classmemberinfo) : List h64classmemberinfo :=
  b.takeWhile (fun e => decide (0 ≤ e.nameid))

/-- Claim C10's bucket invariant: the cell right after the records is a
sentinel with `nameid = -1` (in particular it exists), and the record name
ids are distinct.  (Every record has a nonnegative name id by construction
of `bucketRecords`.) -/
def bucketWf (b : List h64classmemberinfo) : Prop :=
  ((b.drop (bucketRecords b).length).headD ⟨0, 0⟩).nameid = -1 ∧
  (bucketRecords b).length < b.length ∧
  ((bucketRecords b).map (fun e => e.nameid)).Nodup

/-- Claim C10's class invariant: `H64CLASS_HASH_SIZE` buckets, each well
formed. -/
def classHashmapWf (c : h64class) : Prop :=
  c.global_name_to_member_hashmap.length = H64CLASS_HASH_SIZE.toNat ∧
  ∀ b ∈ c.global_name_to_member_hashmap, bucketWf b

/-- The observable data of a class: everything its C representation lets
the rest of the program read.  Bucket cells after the first sentinel are
allocation slack that no loop reaches (C arrays carry no length), so a
bucket's observable content is its records. -/
def classObservable (c : h64class) :
    Int × List Int × List Int × List Int ×
    List (List h64classmemberinfo) × Bool :=
  (c.base_class_global_id, c.method_global_name_idx, c.method_func_idx,
   c.vars_global_name_idx,
   c.global_name_to_member_hashmap.map bucketRecords,
   c.hasvarinitfunc)

/-- The functions / classes / globals tables of the program (with classes
through their observable projection) and the distinguished main index:
the state claim C2's amended form says a failing registration leaves
unchanged. -/
def progCore (p : h64program) :
    List h64globalvar × List h64func ×
    List (Int × List Int × List Int × List Int ×
      List (List h64classmemberinfo) × Bool) × Int :=
  (p.globalvar, p.func, p.classes.map classObservable, p.main_func_index)

/-- All member-hashmap buckets of all classes of the program are well
formed (established by `h64program_AddClass`, preserved by every
registration; hypothesis of claim C2's amended form). -/
def progBucketsWf (p : h64program) : Prop :=
  ∀ c ∈ p.classes, ∀ b ∈ c.global_name_to_member_hashmap, bucketWf b

end Bytecode

/-- A list of sizes is nondecreasing (claim C6's "first increase" phase);
a plain recursive predicate so concrete instances evaluate. -/
def sizesNondecreasing : List Nat → Bool
  | [] => true
  | [_] => true
  | a :: b :: rest => decide (a ≤ b) && sizesNondecreasing (b :: rest)

/-- A list of sizes is nonincreasing (claim C6's "then decrease" phase). -/
def sizesNonincreasing : List Nat → Bool
  | [] => true
  | [_] => true
  | a :: b :: rest => decide (b ≤ a) && sizesNonincreasing (b :: rest)

/-- A concrete `uri_Normalize` collaborator for the evaluation scenarios:
the identity embedding, which is deterministic and idempotent as §6
requires. -/
def normIdent : String → Option String := fun s => some s

section Scenarios

open Bytecode Vm Scoperesolver

/-- Claim C1 scenario: a fresh program with one class. -/
def C1_prog_class : Int × h64program :=
  h64program_AddClass h64program_New "Cls" none none none normIdent {}

/-- Claim C1 scenario: register member "f" on class 0 with `func_idx = 0`
(a method registration; function id 0 is a legal function id). -/
def C1_reg : Int × h64program :=
  h64program_RegisterClassMemberEx C1_prog_class.2 0 "f" 0 {}

/-- Claim C2 counterexample scenario: `h64program_AddGlobalvar` with a file
URI and a module path, failing at the globalvar-symbols `realloc`. -/
def C2_fail : Int × h64program :=
  h64program_AddGlobalvar h64program_New "v" false (some "file:///a.h64")
    (some "mod.x") none normIdent { symReallocOk := false }

/-- Claim C2 amended-witness scenario: `h64program_RegisterCFunction`
failing at the name `strdup`. -/
def C2_failF : Int × h64program :=
  h64program_RegisterCFunction h64program_New (some "f") true
    (some "file:///a.h64") 0 [] false (some "mod.x") none 0 (-1) normIdent
    { nameStrdupOk := false }

/-- Claim C2 amended-witness scenario: `h64program_AddClass` failing at the
class-symbols map set. -/
def C2_failC : Int × h64program :=
  h64program_AddClass h64program_New "K" (some "file:///a.h64")
    (some "mod.x") none normIdent { mapSetOk := false }

/-- Claim C3 scenario: intern the same URI twice. -/
def C3_call1 : Int × h64program :=
  bytecode_fileuriindex h64program_New "file:///a.h64" normIdent {}

/-- Claim C3 scenario, second call with the identical URI. -/
def C3_call2 : Int × h64program :=
  bytecode_fileuriindex C3_call1.2 "file:///a.h64" normIdent {}

/-- Claim C5 scenario: a thread with a valid pool and a one-slot stack
(floor 0), as the claim's precondition demands. -/
def C5_thread : h64vmthread :=
  { stack := { entry_count := 1, alloc_count := 1, current_func_floor := 0,
               entry := fun _ => valuecontentZero },
    heap := some {} }

/-- Claim C5 scenario: execute one `setconst` with destination slot 0 and a
preallocated-string payload ("hello" as code points). -/
def C5_run : Int × h64vmthread × Option poolalloc :=
  vmthread_RunFunction C5_thread
    [.setconst 0 (.CONSTPREALLOCSTR [104, 101, 108, 108, 111])] true

/-- Claim C6 witness scenario: tunables. -/
def C6_w_tun : StackTunables :=
  { OVERSHOOT := 16, MAXOVERSHOOT := 64, EMERGENCY_MARGIN := 6 }

/-- Claim C6 witness scenario: a stack with two written slots. -/
def C6_w_st : h64stack :=
  { entry_count := 2, alloc_count := 10, current_func_floor := 0,
    entry := fun n => .INT64 n }

/-- Claim C6 witness scenario: sizes that first increase, then decrease. -/
def C6_w_calls : List ToSizeCall :=
  [{ n := 3 }, { n := 7 }, { n := 9 }, { n := 5, emergency := true },
   { n := 2 }]

/-- Claim C7 witness scenario: a second global function named `main`
(the program already has `main_func_index = 0` from the first one). -/
def C7_w_state : resolverstate :=
  { exprs := [{ etype := .FUNCDEF_STMT, parent := none,
                scope_is_global := true, funcdef_name := some "main",
                line := 9, column := 1 }],
    program := { h64program_New with main_func_index := 0 },
    ast_fileuri := "file:///m.h64",
    ast_module_path := some "m" }

/-- Claim C8 scenario: a project loader whose services are never needed
(all imports are pre-linked). -/
def C8_env : BuildEnv :=
  { resolveImport := fun _ _ _ => .notfound,
    getAST := fun _ => .err,
    deriveModulePath := fun _ => none }

/-- Claim C8 scenario: entry AST 0 imports AST 1, which imports AST 2; all
module paths set, all imports pre-linked, nothing built yet. -/
def C8_store : buildstate :=
  { store :=
      [{ fileuri := "file:///a.h64", module_path := some "a",
         defs := [.importstmt { import_elements := ["b"],
                                referenced_ast := some 1 }] },
       { fileuri := "file:///b.h64", module_path := some "b",
         defs := [.importstmt { import_elements := ["c"],
                                referenced_ast := some 2 }] },
       { fileuri := "file:///c.h64", module_path := some "c" }] }

/-- Claim C8 scenario: resolve the entry recursively with extract_main. -/
def C8_run : Bool × buildstate :=
  buildASTGlobalStorage C8_env C8_store 0 true true

/-- Claim C9 scenario: a fresh program with one class and an empty
member-name interning table. -/
def C9_prog : h64program :=
  (h64program_AddClass h64program_New "Cls" none none none normIdent {}).2

/-- Claim C10 witness scenario: member registrations after an
`h64program_AddClass` — two methods, one variable, one duplicate (fails),
one with a negative-interning failure. -/
def C10_w_calls : List (String × Int × RegisterMemberAlloc) :=
  [("a", 0, {}), ("b", 3, {}), ("a", 7, {}), ("c", -1, {}),
   ("d", 2, { methodArr2Ok := false })]

/-- A sequence of `h64program_RegisterClassMemberEx` calls on one class:
each list entry carries the member name, the `func_idx` argument and the
allocation outcomes of that call. -/
def applyRegisterCalls (p : h64program) (class_id : Int)
    (calls : List (String × Int × RegisterMemberAlloc)) : h64program :=
  calls.foldl
    (fun q c => (h64program_RegisterClassMemberEx q class_id c.1 c.2.1
      c.2.2).2) p

/-- Claim C10 witness scenario: the `h64program_AddClass` call creating the
class the member registrations of `C10_w_calls` target. -/
def C10_w_add : Int × h64program :=
  h64program_AddClass h64program_New "Cls" none none none normIdent {}

end Scenarios

/-! ## Claims -/

section Claims

open Bytecode Vm Scoperesolver Unicode

/-- Claim C1.  On a fresh program with one class, registering member "f"
with `func_idx = 0` (a method registration: `func_idx ≥ 0`) succeeds, the
name interns to id 0 — and the subsequent lookup of that id yields
`var_id = 0`, `func_id = -1`: the opposite discriminator of what the claim
(and the intent of the `>`-vs-`>=` test at bytecode.c:259) states, because
`func_idx > 0` is false for function id 0, so the member slot is encoded as
a variable index even though the member went into the method arrays. -/
theorem C1_func_idx_zero_misclassified :
    C1_prog_class.1 = 0 ∧
    C1_reg.1 = 1 ∧
    (h64debugsymbols_MemberNameToMemberNameId C1_reg.2.symbols "f"
      false).1 = 0 ∧
    h64program_LookupClassMember C1_reg.2 0 0 = some (0, -1) := by
  decide

/-- Claim C2, counterexample.  `h64program_AddGlobalvar` with a file URI
and a module path, failing at the globalvar-symbols `realloc`: the call
returns the failure sentinel −1, yet the symbols' fileuri list has gained
the normalized URI and the module table a new module record — observable
mutation on failure, contradicting the claim's transactional requirement. -/
theorem C2_failure_mutates_program :
    C2_fail.1 = -1 ∧
    C2_fail.2.symbols.fileuri = ["file:///a.h64"] ∧
    h64program_New.symbols.fileuri = [] ∧
    C2_fail.2.symbols.module_symbols.length = 2 ∧
    h64program_New.symbols.module_symbols.length = 1 ∧
    C2_fail.2 ≠ h64program_New := by
  decide

/-- Claim C3.  Two `bytecode_fileuriindex` calls on the same program with
the identical URI (normalization is the identity here): the first returns
index 0, the second index 1, and the fileuri list ends with the URI twice —
the search loop's condition `k > fileuri_count` (bytecode.c:534) never lets
the comparison run, so the function always appends. -/
theorem C3_fileuriindex_always_appends :
    C3_call1.1 = 0 ∧
    C3_call2.1 = 1 ∧
    C3_call2.2.symbols.fileuri = ["file:///a.h64", "file:///a.h64"] := by
  decide

/-- Claim C4.  The code-point sequence [U+0800] (no surrogates, encodable
in UTF-8): `write_codepoint_as_utf8` produces C0 A0 80 (lead byte `| 0xC0`
instead of `| 0xE0`, unicode.c:64), `utf8_to_utf32` rejects those bytes and
surrogate-replaces each one, and the re-encoding is CD B5 80 CD B4 A0 CD B4
80 — not the original bytes, so the round trip is not the identity. -/
theorem C4_utf8_roundtrip_broken :
    write_codepoint_as_utf8 0x800 1024 = some [0xC0, 0xA0, 0x80] ∧
    utf8_to_utf32 [0xC0, 0xA0, 0x80] = some [0xDD40, 0xDD20, 0xDD00] ∧
    utf8_roundtrip [0x800] =
      some [0xCD, 0xB5, 0x80, 0xCD, 0xB4, 0xA0, 0xCD, 0xB4, 0x80] ∧
    utf8_roundtrip [0x800] ≠ utf32_to_utf8 [0x800] 1024 := by
  decide

/-- Claim C5.  Executing one `setconst slot=0, content=preallocstr("hello")`
on a thread whose stack has size 1 and whose pool is valid: because
vmexec.c:82 initializes the local pool pointer from itself (never from
`vmthread->heap`), the allocation fails, the handler takes the `triggeroom`
path and returns 0, and slot 0 is left a GCVAL with a NULL pointer; the
thread's heap still holds no string object — not the claimed fresh string
with `external_refcount = 1`. -/
theorem C5_setconst_uses_uninitialized_heap :
    C5_run.1 = 0 ∧
    C5_run.2.1.stack.entry 0 = .GCVAL none ∧
    C5_run.2.1.heap = some { objects := [] } := by
  decide

/-- Claim C8, counterexample.  Entry AST 0 imports AST 1 which imports
AST 2 (all pre-linked, nothing built): recursive storage building on the
entry applies the transform to ASTs 0 and 1 only — AST 2, referenced
transitively, is never processed (`recursive = 0` is passed on recursion,
scoperesolver.c:1232), its built flag stays false. -/
theorem C8_not_transitive :
    C8_run.1 = true ∧
    C8_run.2.applied = [(0, true), (1, false)] ∧
    (C8_run.2.store.getD 2 {}).global_storage_built = false := by
  decide

/-- Claim C9.  On a class created by `h64program_AddClass` and a name with
no interned member-name id: the interning lookup yields −1, and
`h64program_LookupClassMemberByname` — whose `if (nameid < 0)` branch is
missing its `return` (bytecode.c:300-303) — still calls
`h64program_LookupClassMember`, which computes `bucketindex = -1 % 64 = -1`
and reads `global_name_to_member_hashmap[-1]`: an out-of-bounds read,
modelled as the undefined result `none`, not the claimed clean `(-1, -1)`
report without a hashmap read. -/
theorem C9_negative_nameid_reads_hashmap :
    (h64debugsymbols_MemberNameToMemberNameId C9_prog.symbols "absent"
      false).1 = -1 ∧
    Int.tmod (-1) H64CLASS_HASH_SIZE = -1 ∧
    h64program_LookupClassMemberByname C9_prog 0 "absent" = none := by
  decide

/-- `stack_Shrink` never touches the cells, sets the entry count to
`min total entry_count`, and either keeps the allocation or sets it to the
new entry count plus the overshoot. -/
theorem stack_Shrink_spec (tun : StackTunables) (st : h64stack)
    (t : Nat) (ok : Bool) :
    (stack_Shrink tun st t ok).entry = st.entry ∧
    (stack_Shrink tun st t ok).entry_count = min t st.entry_count ∧
    ((stack_Shrink tun st t ok).alloc_count = st.alloc_count ∨
     (stack_Shrink tun st t ok).alloc_count =
       min t st.entry_count + tun.OVERSHOOT) := by
  unfold stack_Shrink
  dsimp only
  refine ⟨?_, ?_, ?_⟩
  · repeat' split
    all_goals rfl
  · repeat' split
    all_goals dsimp only
    all_goals omega
  · repeat' split
    all_goals dsimp only
    all_goals first
      | (left; omega)
      | (right; omega)

/-- The `stack_ToSize` tail keeps at least `m` entries, keeps the
allocation within the claim-C6 bound, and leaves cells below `m`
untouched. -/
theorem stack_ToSize_rest_step (tun : StackTunables) (st : h64stack)
    (n : Nat) (shrinkOk : Bool) (m M : Nat)
    (hm : m ≤ st.entry_count)
    (ha : st.alloc_count ≤ M + tun.EMERGENCY_MARGIN + tun.OVERSHOOT)
    (h1 : m ≤ n) (h2 : n ≤ M) :
    m ≤ (stack_ToSize_rest tun st n shrinkOk).2.entry_count ∧
    (stack_ToSize_rest tun st n shrinkOk).2.alloc_count ≤
      M + tun.EMERGENCY_MARGIN + tun.OVERSHOOT ∧
    ∀ j < m, (stack_ToSize_rest tun st n shrinkOk).2.entry j =
      st.entry j := by
  unfold stack_ToSize_rest
  split
  · obtain ⟨he, hc, hal⟩ := stack_Shrink_spec tun st n shrinkOk
    dsimp only
    refine ⟨by omega, by rcases hal with h | h <;> omega,
      fun j hj => by rw [he]⟩
  · refine ⟨by simp; omega, by simpa using ha, fun j hj => ?_⟩
    have hne : ¬ (st.entry_count ≤ j ∧ j < n) := by omega
    simp [hne]

/-- One full `stack_ToSize` call: same invariants as its tail. -/
theorem stack_ToSize_step (tun : StackTunables) (st : h64stack)
    (n : Nat) (em growOk shrinkOk : Bool) (m M : Nat)
    (hm : m ≤ st.entry_count)
    (ha : st.alloc_count ≤ M + tun.EMERGENCY_MARGIN + tun.OVERSHOOT)
    (h1 : m ≤ n) (h2 : n ≤ M) :
    m ≤ (stack_ToSize tun st n em growOk shrinkOk).2.entry_count ∧
    (stack_ToSize tun st n em growOk shrinkOk).2.alloc_count ≤
      M + tun.EMERGENCY_MARGIN + tun.OVERSHOOT ∧
    ∀ j < m, (stack_ToSize tun st n em growOk shrinkOk).2.entry j =
      st.entry j := by
  unfold stack_ToSize
  dsimp only
  repeat' split
  all_goals first
    | exact ⟨hm, ha, fun j hj => rfl⟩
    | exact stack_ToSize_rest_step tun st n shrinkOk m M hm ha h1 h2
    | (refine stack_ToSize_rest_step tun _ n shrinkOk m M hm ?_ h1 h2;
       dsimp only; omega)

/-- Folding claim-C6 call sequences preserves the invariants. -/
theorem stack_applyCalls_invariant (tun : StackTunables) (m M : Nat) :
    ∀ (calls : List ToSizeCall) (st : h64stack),
    m ≤ st.entry_count →
    st.alloc_count ≤ M + tun.EMERGENCY_MARGIN + tun.OVERSHOOT →
    (∀ c ∈ calls, m ≤ c.n ∧ c.n ≤ M) →
    m ≤ (stack_applyCalls tun st calls).entry_count ∧
    (stack_applyCalls tun st calls).alloc_count ≤
      M + tun.EMERGENCY_MARGIN + tun.OVERSHOOT ∧
    ∀ j < m, (stack_applyCalls tun st calls).entry j = st.entry j
  | [], st, hm, ha, _ => ⟨hm, ha, fun _ _ => rfl⟩
  | c :: rest, st, hm, ha, hn => by
    have hc := hn c (List.mem_cons_self c rest)
    obtain ⟨h1, h2, h3⟩ := stack_ToSize_step tun st c.n c.emergency c.growOk
      c.shrinkOk m M hm ha hc.1 hc.2
    have ih := stack_applyCalls_invariant tun m M rest
      (stack_ToSize tun st c.n c.emergency c.growOk c.shrinkOk).2 h1 h2
      (fun x hx => hn x (List.mem_cons_of_mem c hx))
    refine ⟨ih.1, ih.2.1, fun j hj => ?_⟩
    rw [show stack_applyCalls tun st (c :: rest) =
      stack_applyCalls tun
        (stack_ToSize tun st c.n c.emergency c.growOk c.shrinkOk).2 rest
      from rfl]
    rw [ih.2.2 j hj, h3 j hj]

/-- Claim C6.  For a sequence of `stack_ToSize` calls whose sizes first
increase and then decrease, all within `[m, M]`, starting from a stack with
at least `m` entries and an allocation within the steady-state bound: every
cell below `m` still holds its value after the whole sequence, and the
final allocation never exceeds `M + ALLOC_OVERSHOOT + ALLOC_EMERGENCY_MARGIN
+ 1`.  (The invariant holds for arbitrary sequences; the
increase-then-decrease shape of the claim is the `hshape` hypothesis.) -/
theorem C6_stack_tosize_preserves_and_bounds (tun : StackTunables)
    (st0 : h64stack) (calls : List ToSizeCall) (m M : Nat)
    (hm : m ≤ st0.entry_count)
    (ha : st0.alloc_count ≤ M + tun.EMERGENCY_MARGIN + tun.OVERSHOOT)
    (hn : ∀ c ∈ calls, m ≤ c.n ∧ c.n ≤ M)
    (hshape : ∃ k,
      sizesNondecreasing ((calls.map (fun c => c.n)).take k) = true ∧
      sizesNonincreasing ((calls.map (fun c => c.n)).drop k) = true) :
    (∀ j < m, (stack_applyCalls tun st0 calls).entry j = st0.entry j) ∧
    (stack_applyCalls tun st0 calls).alloc_count ≤
      M + tun.OVERSHOOT + tun.EMERGENCY_MARGIN + 1 := by
  obtain ⟨h1, h2, h3⟩ := stack_applyCalls_invariant tun m M calls st0 hm ha hn
  exact ⟨h3, by omega⟩

/-- Claim C6, witness: the concrete unimodal sequence 3, 7, 9, 5, 2 over a
stack with two written slots. -/
theorem C6_witness :
    (∀ j < 2, (stack_applyCalls C6_w_tun C6_w_st C6_w_calls).entry j =
      C6_w_st.entry j) ∧
    (stack_applyCalls C6_w_tun C6_w_st C6_w_calls).alloc_count ≤
      9 + C6_w_tun.OVERSHOOT + C6_w_tun.EMERGENCY_MARGIN + 1 :=
  C6_stack_tosize_preserves_and_bounds C6_w_tun C6_w_st C6_w_calls 2 9
    (by decide) (by decide) (by decide) ⟨3, by decide, by decide⟩

/-- `bucketScan`, when it reaches a sentinel, has counted exactly the
records before the first sentinel. -/
theorem bucketScan_eq_records :
    ∀ (b : List h64classmemberinfo) (nameid : Int) (k : Nat),
      bucketScan b nameid = some k → k = (bucketRecords b).length := by
  intro b nameid
  induction b with
  | nil =>
    intro k h
    simp [bucketScan] at h
    simp [bucketRecords, ← h]
  | cons e rest ih =>
    intro k h
    by_cases he : 0 ≤ e.nameid
    · by_cases hn : e.nameid = nameid
      · simp [bucketScan, he, hn] at h
        omega
      · simp only [bucketScan, if_pos he, beq_iff_eq, if_neg hn] at h
        cases hs : bucketScan rest nameid with
        | none => rw [hs] at h; simp at h
        | some k2 =>
          rw [hs] at h
          simp at h
          have := ih k2 hs
          simp [bucketRecords, List.takeWhile_cons, he] at this ⊢
          omega
    · simp only [bucketScan, if_neg he] at h
      simp at h
      simp [bucketRecords, List.takeWhile_cons, he, ← h]

/-- `bucketScan`, when it reaches a sentinel, has seen no record with the
sought name id. -/
theorem bucketScan_not_mem :
    ∀ (b : List h64classmemberinfo) (nameid : Int) (k : Nat),
      bucketScan b nameid = some k →
      nameid ∉ (bucketRecords b).map (fun e => e.nameid) := by
  intro b nameid
  induction b with
  | nil => intro k _ hmem; simp [bucketRecords] at hmem
  | cons e rest ih =>
    intro k h hmem
    by_cases he : 0 ≤ e.nameid
    · by_cases hn : e.nameid = nameid
      · simp [bucketScan, he, hn] at h
        omega
      · simp only [bucketScan, if_pos he, beq_iff_eq, if_neg hn] at h
        cases hs : bucketScan rest nameid with
        | none => rw [hs] at h; simp at h
        | some k2 =>
          simp [bucketRecords, List.takeWhile_cons, he] at hmem
          rcases hmem with h1 | h1
          · exact hn h1.symm
          · exact ih k2 hs (by simpa [bucketRecords] using h1)
    · simp [bucketRecords, List.takeWhile_cons, he] at hmem

/-- `reallocList` always yields exactly `n` cells. -/
theorem reallocList_length {α : Type} (l : List α) (n : Nat) (junk : α) :
    (reallocList l n junk).length = n := by
  unfold reallocList
  simp
  omega

/-- The records of a record block followed by a sentinel-headed rest. -/
theorem bucketRecords_append (xs : List h64classmemberinfo)
    (s : h64classmemberinfo) (tail : List h64classmemberinfo)
    (hxs : ∀ e ∈ xs, 0 ≤ e.nameid) (hs : s.nameid < 0) :
    bucketRecords (xs ++ s :: tail) = xs := by
  induction xs with
  | nil =>
    simp only [List.nil_append, bucketRecords, List.takeWhile_cons]
    simp [show ¬ (0 ≤ s.nameid) by omega]
  | cons e r ih =>
    have he := hxs e (by simp)
    have ih2 := ih (fun x hx => hxs x (by simp [hx]))
    simp only [List.cons_append, bucketRecords, List.takeWhile_cons,
      bucketRecords] at ih2 ⊢
    simp [he]
    simpa [bucketRecords] using ih2

/-- A record block closed by a sentinel, with distinct record name ids, is
a well-formed bucket, whatever lies beyond the sentinel. -/
theorem bucketWf_shape (xs : List h64classmemberinfo)
    (s : h64classmemberinfo) (tail : List h64classmemberinfo)
    (hxs : ∀ e ∈ xs, 0 ≤ e.nameid) (hs : s.nameid = -1)
    (hnd : (xs.map (fun e => e.nameid)).Nodup) :
    bucketWf (xs ++ s :: tail) := by
  have hrec := bucketRecords_append xs s tail hxs (by omega)
  unfold bucketWf
  rw [hrec, List.drop_left]
  refine ⟨by simpa using hs, by simp, hnd⟩

/-- Every well-formed bucket is its records, a sentinel, then anything. -/
theorem bucketWf_decomp (b : List h64classmemberinfo) (h : bucketWf b) :
    ∃ s tail, b = bucketRecords b ++ s :: tail ∧ s.nameid = -1 := by
  obtain ⟨h1, h2, h3⟩ := h
  have hsplit : b = bucketRecords b ++ b.drop (bucketRecords b).length := by
    conv_lhs => rw [← List.take_append_drop (bucketRecords b).length b]
    congr 1
    exact (List.prefix_iff_eq_take.mp (List.takeWhile_prefix _)).symm
  cases hd : b.drop (bucketRecords b).length with
  | nil =>
    exfalso
    have := List.drop_eq_nil_iff.mp hd
    omega
  | cons s tail =>
    rw [hd] at hsplit h1
    exact ⟨s, tail, hsplit, by simpa using h1⟩

/-- Resizing a sentinel-terminated bucket to `records + 2` cells keeps the
record block and the sentinel (adding or dropping slack beyond them). -/
theorem reallocList_shape (xs : List h64classmemberinfo)
    (s : h64classmemberinfo) (tail : List h64classmemberinfo)
    (junk : h64classmemberinfo) :
    ∃ tail2, reallocList (xs ++ s :: tail) (xs.length + 2) junk =
      xs ++ s :: tail2 := by
  unfold reallocList
  cases tail with
  | nil =>
    refine ⟨[junk], ?_⟩
    rw [List.take_of_length_le (by simp)]
    rw [show (xs ++ [s] : List h64classmemberinfo).length = xs.length + 1
      by simp]
    simp
  | cons t ts =>
    refine ⟨[t], ?_⟩
    rw [show (xs.length + 2) = xs.length + 2 from rfl, List.take_append 2]
    rw [show (xs ++ s :: t :: ts : List h64classmemberinfo).length =
      xs.length + 2 + ts.length by simp; omega]
    simp

/-- Writing the new sentinel at `records + 1` and the new record at
`records` into the resized bucket yields the record block extended by the
new record and closed by a fresh sentinel. -/
theorem bucket_insert_shape (xs : List h64classmemberinfo)
    (s : h64classmemberinfo) (tail : List h64classmemberinfo)
    (junk newrec : h64classmemberinfo) :
    ((reallocList (xs ++ s :: tail) (xs.length + 2) junk).set
        (xs.length + 1) ⟨-1, -1⟩).set xs.length newrec =
      xs ++ [newrec, ⟨-1, -1⟩] := by
  obtain ⟨tail2, ht⟩ := reallocList_shape xs s tail junk
  have hlen : (xs ++ s :: tail2 : List h64classmemberinfo).length =
      xs.length + 2 := by
    rw [← ht]
    exact reallocList_length _ _ _
  have htail2 : tail2.length = 1 := by simp at hlen; omega
  obtain ⟨x, hx⟩ : ∃ x, tail2 = [x] := by
    cases tail2 with
    | nil => simp at htail2
    | cons a l => cases l with
      | nil => exact ⟨a, rfl⟩
      | cons b m => simp at htail2
  rw [ht, hx]
  rw [List.set_append, if_neg (by simp)]
  rw [List.set_append, if_neg (by simp)]
  simp

/-- Every record of a bucket has a nonnegative name id. -/
theorem bucketRecords_nonneg (b : List h64classmemberinfo) :
    ∀ e ∈ bucketRecords b, 0 ≤ e.nameid := by
  intro e he
  have := List.mem_takeWhile_imp he
  simpa using this

/-- Inserting a fresh member record (the success path of
`h64program_RegisterClassMemberEx`) preserves bucket well-formedness. -/
theorem bucketWf_insert (b : List h64classmemberinfo) (nameid : Int)
    (k : Nat) (junk : h64classmemberinfo) (enc : Int)
    (h : bucketWf b) (hscan : bucketScan b nameid = some k)
    (hn : 0 ≤ nameid) :
    bucketWf (((reallocList b (k + 2) junk).set (k + 1) ⟨-1, -1⟩).set k
      ⟨nameid, enc⟩) := by
  obtain ⟨s, tail, hb, hsneg⟩ := bucketWf_decomp b h
  have hk : k = (bucketRecords b).length := bucketScan_eq_records b nameid k
    hscan
  have hnotmem := bucketScan_not_mem b nameid k hscan
  have hnd := h.2.2
  set R := bucketRecords b with hR
  rw [hk, hb, bucket_insert_shape R s tail junk ⟨nameid, enc⟩]
  rw [show R ++ [(⟨nameid, enc⟩ : h64classmemberinfo), ⟨-1, -1⟩] =
    (R ++ [⟨nameid, enc⟩]) ++ (⟨-1, -1⟩ : h64classmemberinfo) :: [] by simp]
  apply bucketWf_shape
  · intro e he
    rcases List.mem_append.mp he with h1 | h1
    · exact bucketRecords_nonneg b e (hR ▸ h1)
    · simp at h1
      rw [h1]
      exact hn
  · rfl
  · rw [List.map_append]
    rw [List.nodup_append]
    refine ⟨hnd, by simp, ?_⟩
    intro a ha hb2
    simp at hb2
    rw [hb2] at ha
    exact hnotmem ha

/-- Resizing a well-formed bucket (the paths of
`h64program_RegisterClassMemberEx` that fail after the bucket realloc)
keeps it well formed and keeps its records. -/
theorem bucketWf_realloc (b : List h64classmemberinfo) (nameid : Int)
    (k : Nat) (junk : h64classmemberinfo)
    (h : bucketWf b) (hscan : bucketScan b nameid = some k) :
    bucketWf (reallocList b (k + 2) junk) ∧
    bucketRecords (reallocList b (k + 2) junk) = bucketRecords b := by
  obtain ⟨s, tail, hb, hsneg⟩ := bucketWf_decomp b h
  have hk : k = (bucketRecords b).length := bucketScan_eq_records b nameid k
    hscan
  have hnd := h.2.2
  set R := bucketRecords b with hR
  obtain ⟨tail2, ht⟩ := reallocList_shape R s tail junk
  rw [hk, hb, ht]
  constructor
  · exact bucketWf_shape R s tail2 (fun e he => bucketRecords_nonneg b e
      (hR ▸ he)) hsneg hnd
  · exact bucketRecords_append R s tail2 (fun e he =>
      bucketRecords_nonneg b e (hR ▸ he)) (by omega)

/-- `List.getD` after `List.set` at the same (in-range) index. -/
theorem getD_set_self {α : Type} (l : List α) (i : Nat) (a d : α)
    (h : i < l.length) : (l.set i a).getD i d = a := by
  simp [List.getD_eq_getElem?_getD, List.getElem?_set, h]

/-- `List.getD` after `List.set` at another index. -/
theorem getD_set_ne {α : Type} (l : List α) (i j : Nat) (a d : α)
    (h : i ≠ j) : (l.set i a).getD j d = l.getD j d := by
  simp [List.getD_eq_getElem?_getD, List.getElem?_set_ne h]

/-- Setting one class keeps every class's hashmap well-formedness, given
the new class is well formed whenever it is the observed one. -/
theorem classHashmapWf_set (classes : List h64class) (cidN i : Nat)
    (cls2 : h64class)
    (h : classHashmapWf (classes.getD i {}))
    (hnew : i = cidN → classHashmapWf cls2) :
    classHashmapWf ((classes.set cidN cls2).getD i {}) := by
  by_cases hc : cidN = i
  · subst hc
    by_cases hl : cidN < classes.length
    · rw [getD_set_self _ _ _ _ hl]
      exact hnew rfl
    · rw [List.set_eq_of_length_le (le_of_not_lt hl)]
      exact h
  · rw [getD_set_ne _ _ _ _ _ hc]
    exact h

/-- The hashmap of a well-formed class stays well formed when one of its
buckets is replaced by a well-formed bucket. -/
theorem classHashmapWf_setBucket (c : h64class) (bidxN : Nat)
    (nb : List h64classmemberinfo)
    (h : classHashmapWf c) (hnb : bucketWf nb) (mg mf vg : List Int)
    (bc : Int) (hv : Bool) :
    classHashmapWf
      { base_class_global_id := bc, method_global_name_idx := mg,
        method_func_idx := mf, vars_global_name_idx := vg,
        global_name_to_member_hashmap :=
          c.global_name_to_member_hashmap.set bidxN nb,
        hasvarinitfunc := hv } := by
  refine ⟨by simpa using h.1, ?_⟩
  intro b hb
  rcases List.mem_or_eq_of_mem_set hb with h1 | h1
  · exact h.2 b h1
  · rw [h1]
    exact hnb

/-- An in-range `List.getD` is a member. -/
theorem getD_mem {α : Type} (l : List α) (n : Nat) (d : α)
    (h : n < l.length) : l.getD n d ∈ l := by
  rw [List.getD_eq_getElem?_getD, List.getElem?_eq_getElem h]
  exact List.getElem_mem h

/-- `h64program_RegisterClassMemberEx` — succeeding or failing — preserves
the member-hashmap well-formedness of every class. -/
theorem registerMemberEx_preserves_wf (p : h64program) (class_id : Int)
    (nm : String) (fi : Int) (a : RegisterMemberAlloc) (i : Nat)
    (h : classHashmapWf (p.classes.getD i {})) :
    classHashmapWf
      (((h64program_RegisterClassMemberEx p class_id nm fi a).2).classes.getD
        i {}) := by
  unfold h64program_RegisterClassMemberEx
  dsimp only
  set nameid := (h64debugsymbols_MemberNameToMemberNameId p.symbols nm true
    a.nameidOk).1 with hnameid
  set cidN := class_id.toNat with hcid
  set bidxN := (nameid.tmod H64CLASS_HASH_SIZE).toNat with hbidx
  set cls0 := p.classes.getD cidN {} with hcls0
  set buckets := cls0.global_name_to_member_hashmap.getD bidxN []
    with hbuckets
  split
  · exact h
  next h1 =>
  split
  · exact h
  next h2 =>
  split
  · exact h
  next count hscan =>
  split
  · exact h
  next h3 =>
  have hn0 : (0 : Int) ≤ nameid := by omega
  have hwfb : i = cidN → bucketWf buckets := by
    intro hi
    have hi2 : classHashmapWf cls0 := by rw [hcls0, ← hi]; exact h
    have hlt : nameid.tmod H64CLASS_HASH_SIZE < H64CLASS_HASH_SIZE :=
      Int.tmod_lt_of_pos _ (by norm_num [H64CLASS_HASH_SIZE])
    have hge : (0 : Int) ≤ nameid.tmod H64CLASS_HASH_SIZE :=
      Int.tmod_nonneg _ hn0
    have hbl : bidxN < cls0.global_name_to_member_hashmap.length := by
      rw [hi2.1]
      rw [hbidx]
      simp [H64CLASS_HASH_SIZE] at hlt hge ⊢
      omega
    exact hi2.2 buckets (hbuckets ▸ getD_mem _ _ _ hbl)
  split
  next heq =>
    apply classHashmapWf_set _ _ _ _ h
    intro hi
    have hi2 : classHashmapWf cls0 := by rw [hcls0, ← hi]; exact h
    exact classHashmapWf_setBucket cls0 bidxN _ hi2
      (bucketWf_realloc buckets nameid count a.bucketJunk (hwfb hi) hscan).1
      _ _ _ _ _
  next cls2 entry heq =>
    split at heq
    · split at heq
      · exact absurd heq (by simp)
      · split at heq
        · exact absurd heq (by simp)
        · split at heq
          · exact absurd heq (by simp)
          · simp only [Option.some.injEq, Prod.mk.injEq] at heq
            obtain ⟨h4, h5⟩ := heq
            subst h4
            dsimp only
            rw [List.set_set]
            apply classHashmapWf_set _ _ _ _ h
            intro hi
            have hi2 : classHashmapWf cls0 := by rw [hcls0, ← hi]; exact h
            rw [List.set_set]
            exact classHashmapWf_setBucket cls0 bidxN _ hi2
              (bucketWf_insert buckets nameid count a.bucketJunk _
                (hwfb hi) hscan hn0) _ _ _ _ _
    · split at heq
      · exact absurd heq (by simp)
      · simp only [Option.some.injEq, Prod.mk.injEq] at heq
        obtain ⟨h4, h5⟩ := heq
        subst h4
        dsimp only
        rw [List.set_set]
        apply classHashmapWf_set _ _ _ _ h
        intro hi
        have hi2 : classHashmapWf cls0 := by rw [hcls0, ← hi]; exact h
        rw [List.set_set]
        exact classHashmapWf_setBucket cls0 bidxN _ hi2
          (bucketWf_insert buckets nameid count a.bucketJunk _
            (hwfb hi) hscan hn0) _ _ _ _ _

/-- Appending one element and reading at the old length yields it. -/
theorem getD_append_len {α : Type} (l : List α) (c d : α) :
    (l ++ [c]).getD l.length d = c := by
  rw [List.getD_eq_getElem?_getD, List.getElem?_append_right (le_refl _)]
  simp

/-- A fresh one-sentinel bucket is well formed. -/
theorem bucketWf_sentinel : bucketWf [⟨-1, -1⟩] := by
  refine ⟨rfl, by simp [bucketRecords], by simp [bucketRecords]⟩

/-- A successful `h64program_AddClass_part2` stores a class whose member
hashmap is well formed at the returned class id. -/
theorem addClass_part2_wf (p : h64program) (name : String)
    (module_path library_name : Option String) (alloc : AddClassAlloc) :
    0 ≤ (h64program_AddClass_part2 p name module_path library_name
      alloc).1 →
    classHashmapWf
      ((h64program_AddClass_part2 p name module_path library_name
        alloc).2.classes.getD
        (h64program_AddClass_part2 p name module_path library_name
          alloc).1.toNat {}) := by
  unfold h64program_AddClass_part2 addclass_classsymboloom
  dsimp only
  split
  · intro h; dsimp only at h; exact absurd h (by decide)
  split
  · intro h; dsimp only at h; exact absurd h (by decide)
  split
  · intro h; dsimp only at h; exact absurd h (by decide)
  split
  · intro h; dsimp only at h; exact absurd h (by decide)
  split
  · intro h; dsimp only at h; exact absurd h (by decide)
  split
  · intro h; dsimp only at h; exact absurd h (by decide)
  split
  · intro h; dsimp only at h; exact absurd h (by decide)
  split
  · intro h; dsimp only at h; exact absurd h (by decide)
  intro h
  have hn : (((p.classes ++
      [({ base_class_global_id := -1,
          global_name_to_member_hashmap :=
            List.replicate H64CLASS_HASH_SIZE.toNat
              [{ nameid := -1, methodorvaridx := -1 }] } :
        h64class)]).length : Int) - 1).toNat = p.classes.length := by
    simp only [List.length_append, List.length_singleton]
    omega
  rw [hn, getD_append_len]
  refine ⟨by simp, ?_⟩
  intro b hb
  rw [List.eq_of_mem_replicate hb]
  exact bucketWf_sentinel

/-- A successful `h64program_AddClass` stores a class whose member hashmap
is well formed at the returned class id. -/
theorem addClass_establishes_wf (p : h64program) (name : String)
    (fileuri module_path library_name : Option String)
    (norm : String → Option String) (alloc : AddClassAlloc)
    (h : 0 ≤ (h64program_AddClass p name fileuri module_path library_name
      norm alloc).1) :
    classHashmapWf
      ((h64program_AddClass p name fileuri module_path library_name norm
        alloc).2.classes.getD
        (h64program_AddClass p name fileuri module_path library_name norm
          alloc).1.toNat {}) := by
  revert h
  unfold h64program_AddClass
  dsimp only
  split
  · intro h; dsimp only at h; exact absurd h (by decide)
  split
  · split
    · intro h; dsimp only at h; exact absurd h (by decide)
    · exact addClass_part2_wf _ name module_path library_name alloc
  · exact addClass_part2_wf p name module_path library_name alloc

/-- `classHashmapWf` at every class index survives a whole sequence of
member registrations. -/
theorem applyRegisterCalls_preserves_wf
    (calls : List (String × Int × RegisterMemberAlloc)) (p : h64program)
    (class_id : Int) (i : Nat)
    (h : classHashmapWf (p.classes.getD i {})) :
    classHashmapWf
      ((applyRegisterCalls p class_id calls).classes.getD i {}) := by
  induction calls generalizing p with
  | nil => exact h
  | cons c rest ih =>
    exact ih _ (registerMemberEx_preserves_wf p class_id c.1 c.2.1 c.2.2 i h)

/-- Claim C10.  For every class created by a successful `h64program_AddClass`
(on any starting program, with any allocation outcomes) and after every
sequence of successful or failed `h64program_RegisterClassMemberEx` calls on
it, each of the `H64CLASS_HASH_SIZE` buckets of its member hashmap is
terminated by a sentinel record with `nameid = -1`, every record before the
sentinel has a non-negative `nameid` (`bucketRecords` keeps exactly those),
and no two records in the same bucket share a `nameid`. -/
theorem C10_hashmap_invariant (p : h64program) (name : String)
    (fileuri module_path library_name : Option String)
    (norm : String → Option String) (alloc : AddClassAlloc)
    (calls : List (String × Int × RegisterMemberAlloc))
    (h : 0 ≤ (h64program_AddClass p name fileuri module_path library_name
      norm alloc).1) :
    classHashmapWf
      ((applyRegisterCalls
          (h64program_AddClass p name fileuri module_path library_name norm
            alloc).2
          (h64program_AddClass p name fileuri module_path library_name norm
            alloc).1
          calls).classes.getD
        (h64program_AddClass p name fileuri module_path library_name norm
          alloc).1.toNat {}) :=
  applyRegisterCalls_preserves_wf calls _ _ _
    (addClass_establishes_wf p name fileuri module_path library_name norm
      alloc h)

/-- Claim C10 witness: the invariant instantiated on a fresh program, class
"Cls" (id 0) and the five-call sequence `C10_w_calls`. -/
theorem C10_witness :
    0 ≤ C10_w_add.1 ∧
    classHashmapWf
      ((applyRegisterCalls C10_w_add.2 C10_w_add.1 C10_w_calls).classes.getD
        C10_w_add.1.toNat {}) :=
  ⟨by decide, C10_hashmap_invariant h64program_New "Cls" none none none
    normIdent {} C10_w_calls (by decide)⟩

/-- `List.getD` through a `List.map`, at an in-range index. -/
theorem getD_map {α β : Type} (f : α → β) (l : List α) (i : Nat) (d1 : α)
    (d2 : β) (h : i < l.length) : (l.map f).getD i d2 = f (l.getD i d1) := by
  rw [List.getD_eq_getElem?_getD, List.getD_eq_getElem?_getD,
    List.getElem?_eq_getElem h,
    List.getElem?_eq_getElem (show i < (l.map f).length by simpa using h)]
  simp

/-- Writing back the cell just read is a no-op (in range). -/
theorem set_getD_self {α : Type} (l : List α) (i : Nat) (d : α)
    (h : i < l.length) : l.set i (l.getD i d) = l := by
  rw [List.getD_eq_getElem?_getD, List.getElem?_eq_getElem h]
  simp only [Option.getD_some]
  apply List.ext_getElem?
  intro j
  rw [List.getElem?_set]
  split
  · next he => subst he; rw [List.getElem?_eq_getElem h]
  · rfl

/-- Reallocating one (well-formed) bucket of a hashmap to `count + 2` cells
does not change the records of any bucket. -/
theorem map_records_set_realloc (hm : List (List h64classmemberinfo))
    (bidxN count : Nat) (nameid : Int) (junk : h64classmemberinfo)
    (hwf : ∀ b ∈ hm, bucketWf b)
    (hscan : bucketScan (hm.getD bidxN []) nameid = some count) :
    (hm.set bidxN
      (reallocList (hm.getD bidxN []) (count + 2) junk)).map bucketRecords =
      hm.map bucketRecords := by
  by_cases hl : bidxN < hm.length
  · rw [List.map_set]
    rw [(bucketWf_realloc _ nameid count junk (hwf _ (getD_mem _ _ _ hl))
      hscan).2]
    rw [← getD_map bucketRecords hm bidxN [] [] hl]
    exact set_getD_self _ _ _ (by simpa using hl)
  · rw [List.set_eq_of_length_le (le_of_not_lt hl)]

/-- A failing `h64program_RegisterClassMemberEx` (result 0) leaves the
globals, functions and classes tables (classes observably: the published
bucket `realloc` only resizes allocation slack) and the main index
unchanged.  Needs every bucket of every class well formed. -/
theorem registerMemberEx_fail_fields (p : h64program) (class_id : Int)
    (nm : String) (fi : Int) (a : RegisterMemberAlloc)
    (hwf : progBucketsWf p)
    (h : (h64program_RegisterClassMemberEx p class_id nm fi a).1 = 0) :
    (h64program_RegisterClassMemberEx p class_id nm fi a).2.globalvar =
      p.globalvar ∧
    (h64program_RegisterClassMemberEx p class_id nm fi a).2.func = p.func ∧
    (h64program_RegisterClassMemberEx p class_id nm fi
      a).2.main_func_index = p.main_func_index ∧
    (h64program_RegisterClassMemberEx p class_id nm fi
      a).2.classes.map classObservable = p.classes.map classObservable := by
  revert h
  unfold h64program_RegisterClassMemberEx
  dsimp only
  set nameid := (h64debugsymbols_MemberNameToMemberNameId p.symbols nm true
    a.nameidOk).1 with hnameid
  set cidN := class_id.toNat with hcid
  set bidxN := (nameid.tmod H64CLASS_HASH_SIZE).toNat with hbidx
  set cls0 := p.classes.getD cidN {} with hcls0
  set buckets := cls0.global_name_to_member_hashmap.getD bidxN []
    with hbuckets
  split
  · intro _; exact ⟨rfl, rfl, rfl, rfl⟩
  next h1 =>
  split
  · intro _; exact ⟨rfl, rfl, rfl, rfl⟩
  next h2 =>
  split
  · intro _; exact ⟨rfl, rfl, rfl, rfl⟩
  next count hscan =>
  split
  · intro _; exact ⟨rfl, rfl, rfl, rfl⟩
  next h3 =>
  have hrange : cidN < p.classes.length := by
    rw [hcid]
    omega
  split
  next heq =>
    intro _
    refine ⟨rfl, rfl, rfl, ?_⟩
    rw [List.map_set]
    have hobs : classObservable
        { cls0 with global_name_to_member_hashmap :=
            (cls0.global_name_to_member_hashmap.set bidxN
              (reallocList buckets (count + 2) a.bucketJunk)) } =
        classObservable cls0 := by
      unfold classObservable
      dsimp only
      simp only [Prod.mk.injEq, and_self, and_true, true_and]
      rw [hbuckets]
      exact map_records_set_realloc _ _ _ nameid _
        (hwf cls0 (hcls0 ▸ getD_mem _ _ _ hrange)) (hbuckets ▸ hscan)
    rw [hobs, hcls0,
      ← getD_map classObservable p.classes cidN {} (classObservable {})
        hrange]
    exact set_getD_self _ _ _ (by simpa using hrange)
  next cls2 entry heq =>
    intro h
    dsimp only at h
    exact absurd h (by decide)

/-- `bytecode_fileuriindex` only touches the symbols aggregate: the core
state is unchanged whether it succeeds or fails. -/
theorem fileuriindex_core (p : h64program) (u : String)
    (norm : String → Option String) (a : FileuriAlloc) :
    progCore (bytecode_fileuriindex p u norm a).2 = progCore p := by
  unfold bytecode_fileuriindex
  dsimp only
  repeat' split
  all_goals rfl

/-- `bytecode_fileuriindex` leaves the classes table untouched. -/
theorem fileuriindex_classes (p : h64program) (u : String)
    (norm : String → Option String) (a : FileuriAlloc) :
    (bytecode_fileuriindex p u norm a).2.classes = p.classes := by
  unfold bytecode_fileuriindex
  dsimp only
  repeat' split
  all_goals rfl

/-- A failing `h64program_AddGlobalvar_part2` preserves the core state. -/
theorem addGlobalvar_part2_core (p : h64program) (name : String)
    (is_const : Bool) (fidx : Int) (mp ln : Option String)
    (alloc : AddGlobalvarAlloc) :
    (h64program_AddGlobalvar_part2 p name is_const fidx mp ln alloc).1 =
      -1 →
    progCore (h64program_AddGlobalvar_part2 p name is_const fidx mp ln
      alloc).2 = progCore p := by
  unfold h64program_AddGlobalvar_part2
  dsimp only
  repeat' split
  all_goals intro h
  all_goals first
    | rfl
    | (exfalso; dsimp only at h;
       simp only [List.length_append, List.length_singleton] at h; omega)

/-- A failing `h64program_AddGlobalvar` preserves the core state. -/
theorem addGlobalvar_core (p : h64program) (name : String) (is_const : Bool)
    (fileuri mp ln : Option String) (norm : String → Option String)
    (alloc : AddGlobalvarAlloc) :
    (h64program_AddGlobalvar p name is_const fileuri mp ln norm alloc).1 =
      -1 →
    progCore (h64program_AddGlobalvar p name is_const fileuri mp ln norm
      alloc).2 = progCore p := by
  unfold h64program_AddGlobalvar
  dsimp only
  split
  · intro _; rfl
  split
  next f =>
    split
    · intro _
      exact fileuriindex_core p f norm alloc.fileuriAlloc
    · intro h
      exact (addGlobalvar_part2_core _ name is_const _ mp ln alloc h).trans
        (fileuriindex_core p f norm alloc.fileuriAlloc)
  next =>
    intro h
    exact addGlobalvar_part2_core p name is_const (-1) mp ln alloc h

/-- A failing `h64program_AddClass_part2` preserves the core state. -/
theorem addClass_part2_core (p : h64program) (name : String)
    (mp ln : Option String) (alloc : AddClassAlloc) :
    (h64program_AddClass_part2 p name mp ln alloc).1 = -1 →
    progCore (h64program_AddClass_part2 p name mp ln alloc).2 =
      progCore p := by
  unfold h64program_AddClass_part2 addclass_classsymboloom
  dsimp only
  repeat' split
  all_goals intro h
  all_goals first
    | rfl
    | (exfalso; dsimp only at h;
       simp only [List.length_append, List.length_singleton] at h; omega)

/-- A failing `h64program_AddClass` preserves the core state. -/
theorem addClass_core (p : h64program) (name : String)
    (fileuri mp ln : Option String) (norm : String → Option String)
    (alloc : AddClassAlloc) :
    (h64program_AddClass p name fileuri mp ln norm alloc).1 = -1 →
    progCore (h64program_AddClass p name fileuri mp ln norm alloc).2 =
      progCore p := by
  unfold h64program_AddClass
  dsimp only
  split
  · intro _; rfl
  split
  next f =>
    split
    · intro _
      exact fileuriindex_core p f norm alloc.fileuriAlloc
    · intro h
      exact (addClass_part2_core _ name mp ln alloc h).trans
        (fileuriindex_core p f norm alloc.fileuriAlloc)
  next =>
    intro h
    exact addClass_part2_core p name mp ln alloc h

/-- The `funcsymboloom` cleanup only touches the symbols aggregate. -/
theorem funcsymboloom_core (p : h64program) (msymIdx : Nat)
    (name : Option String) :
    progCore (registercfunction_funcsymboloom p msymIdx name).2 =
      progCore p := by
  unfold registercfunction_funcsymboloom
  dsimp only
  repeat' split
  all_goals rfl

/-- `registerMemberEx_fail_fields`, packaged as a core-state equation. -/
theorem registerMemberEx_fail_core (p : h64program) (class_id : Int)
    (nm : String) (fi : Int) (a : RegisterMemberAlloc)
    (hwf : progBucketsWf p)
    (h : (h64program_RegisterClassMemberEx p class_id nm fi a).1 = 0) :
    progCore (h64program_RegisterClassMemberEx p class_id nm fi a).2 =
      progCore p := by
  obtain ⟨e1, e2, e3, e4⟩ := registerMemberEx_fail_fields p class_id nm fi
    a hwf h
  unfold progCore
  rw [e1, e2, e3, e4]

/-- A failing `h64program_RegisterCFunction_part3` preserves the core
state.  Needs every bucket of every class well formed (for the class-method
registration path, whose failure still publishes a bucket realloc). -/
theorem registerCFunction_part3_core (p : h64program) (msymIdx : Nat)
    (name : Option String) (func : Bool) (cfl : Option String) (argc : Int)
    (san : List (Option String)) (lim : Bool) (thr acx : Int)
    (alloc : RegisterCFunctionAlloc) (hwf : progBucketsWf p) :
    (h64program_RegisterCFunction_part3 p msymIdx name func cfl argc san
      lim thr acx alloc).1 = -1 →
    progCore (h64program_RegisterCFunction_part3 p msymIdx name func cfl
      argc san lim thr acx alloc).2 = progCore p := by
  unfold h64program_RegisterCFunction_part3
  dsimp only
  repeat' split
  all_goals intro h
  all_goals first
    | rfl
    | (exfalso
       unfold h64program_RegisterCFunction_publish at h
       dsimp only at h
       simp only [List.length_append, List.length_singleton] at h
       omega)
    | (exact funcsymboloom_core _ _ _)
    | (rename_i hg
       exact (funcsymboloom_core _ _ _).trans
         (registerMemberEx_fail_core _ _ _ _ _ (fun c hc => hwf c hc)
           (by simpa using hg)))

set_option maxHeartbeats 1000000 in
/-- A failing `h64program_RegisterCFunction_part2` preserves the core
state. -/
theorem registerCFunction_part2_core (p : h64program)
    (name : Option String) (func : Bool) (argc : Int)
    (kwn : List (Option String)) (lim : Bool) (mp ln : Option String)
    (thr acx : Int) (alloc : RegisterCFunctionAlloc)
    (hwf : progBucketsWf p) :
    (h64program_RegisterCFunction_part2 p name func argc kwn lim mp ln thr
      acx alloc).1 = -1 →
    progCore (h64program_RegisterCFunction_part2 p name func argc kwn lim
      mp ln thr acx alloc).2 = progCore p := by
  unfold h64program_RegisterCFunction_part2
  dsimp only
  repeat' split
  all_goals intro h
  all_goals first
    | rfl
    | (refine Eq.trans (funcsymboloom_core _ _ _) ?_
       unfold progCore
       dsimp only)
    | (refine Eq.trans (registerCFunction_part3_core _ _ name func _ argc _
         lim thr acx alloc (fun c hc => hwf c hc) h) ?_
       unfold progCore
       dsimp only)

/-- A failing `h64program_RegisterCFunction` preserves the core state. -/
theorem registerCFunction_core (p : h64program) (name : Option String)
    (func : Bool) (fileuri : Option String) (argc : Int)
    (kwn : List (Option String)) (lim : Bool) (mp ln : Option String)
    (thr acx : Int) (norm : String → Option String)
    (alloc : RegisterCFunctionAlloc) (hwf : progBucketsWf p) :
    (h64program_RegisterCFunction p name func fileuri argc kwn lim mp ln
      thr acx norm alloc).1 = -1 →
    progCore (h64program_RegisterCFunction p name func fileuri argc kwn lim
      mp ln thr acx norm alloc).2 = progCore p := by
  unfold h64program_RegisterCFunction
  dsimp only
  split
  · intro _; rfl
  split
  next f =>
    split
    · intro _
      exact fileuriindex_core p f norm alloc.fileuriAlloc
    · intro h
      refine (registerCFunction_part2_core _ name func argc kwn lim mp ln
        thr acx alloc ?_ h).trans
        (fileuriindex_core p f norm alloc.fileuriAlloc)
      intro c hc
      rw [fileuriindex_classes] at hc
      exact hwf c hc
  next =>
    intro h
    exact registerCFunction_part2_core p name func argc kwn lim mp ln thr
      acx alloc hwf h

/-- Claim C2 (amended).  For each of the three registration operations
(`h64program_AddGlobalvar`, `h64program_RegisterCFunction`,
`h64program_AddClass`), a failing call (result −1) leaves the core program
state — the globals, functions and classes tables (classes up to their
observable content) and the distinguished main index — unchanged; the
symbols aggregate, the fileuri list and the module maps may retain partial
mutations.  The member-registration path needs the bucket invariant. -/
theorem C2_failure_preserves_core (p : h64program) (gname cname : String)
    (is_const : Bool) (fname : Option String) (func : Bool)
    (fileuri module_path library_name : Option String) (argc : Int)
    (kwn : List (Option String)) (lim : Bool) (thr acx : Int)
    (norm : String → Option String) (ga : AddGlobalvarAlloc)
    (fa : RegisterCFunctionAlloc) (ca : AddClassAlloc)
    (hwf : progBucketsWf p) :
    ((h64program_AddGlobalvar p gname is_const fileuri module_path
        library_name norm ga).1 = -1 →
      progCore (h64program_AddGlobalvar p gname is_const fileuri
        module_path library_name norm ga).2 = progCore p) ∧
    ((h64program_RegisterCFunction p fname func fileuri argc kwn lim
        module_path library_name thr acx norm fa).1 = -1 →
      progCore (h64program_RegisterCFunction p fname func fileuri argc kwn
        lim module_path library_name thr acx norm fa).2 = progCore p) ∧
    ((h64program_AddClass p cname fileuri module_path library_name norm
        ca).1 = -1 →
      progCore (h64program_AddClass p cname fileuri module_path
        library_name norm ca).2 = progCore p) :=
  ⟨addGlobalvar_core p gname is_const fileuri module_path library_name norm
      ga,
   registerCFunction_core p fname func fileuri argc kwn lim module_path
     library_name thr acx norm fa hwf,
   addClass_core p cname fileuri module_path library_name norm ca⟩

/-- Claim C2 (amended) witness: the three scenario calls all fail and all
preserve the core state. -/
theorem C2_amended_witness :
    progBucketsWf h64program_New ∧
    C2_fail.1 = -1 ∧ progCore C2_fail.2 = progCore h64program_New ∧
    C2_failF.1 = -1 ∧ progCore C2_failF.2 = progCore h64program_New ∧
    C2_failC.1 = -1 ∧ progCore C2_failC.2 = progCore h64program_New := by
  have hwf : progBucketsWf h64program_New := by
    intro c hc
    simp [h64program_New] at hc
  have T := C2_failure_preserves_core h64program_New "v" "K" false
    (some "f") true (some "file:///a.h64") (some "mod.x") none 0 [] false
    0 (-1) normIdent { symReallocOk := false } { nameStrdupOk := false }
    { mapSetOk := false } hwf
  exact ⟨hwf, by decide, T.1 (by decide), by decide, T.2.1 (by decide),
    by decide, T.2.2 (by decide)⟩

/-- `h64debugsymbols_GetModule` with creation allowed and allocation
succeeding always yields a module index. -/
theorem getModule_allok (s : h64debugsymbols) (mp2 : String)
    (ln : Option String) :
    ∃ i, (h64debugsymbols_GetModule s mp2 ln true true).1 = some i := by
  unfold h64debugsymbols_GetModule
  cases hf : s.module_symbols.findIdx?
      (fun m => m.module_path == some mp2 && m.library_name == ln) with
  | none => exact ⟨s.module_symbols.length, by simp [hf]⟩
  | some k => exact ⟨k, by simp [hf]⟩

/-- All-ok `h64program_RegisterCFunction_part3` for a plain Horse64
function (no native pointer, no owning class) succeeds with the next
function id and leaves `main_func_index` alone. -/
theorem part3_allok (p : h64program) (msymIdx : Nat)
    (name : Option String) (cfl : Option String) (argc : Int)
    (san : List (Option String)) (lim : Bool) (thr : Int) :
    (h64program_RegisterCFunction_part3 p msymIdx name false cfl argc san
      lim thr (-1) {}).1 = (p.func.length : Int) ∧
    (h64program_RegisterCFunction_part3 p msymIdx name false cfl argc san
      lim thr (-1) {}).2.main_func_index = p.main_func_index := by
  unfold h64program_RegisterCFunction_part3
    h64program_RegisterCFunction_publish
  cases name with
  | none =>
    dsimp only
    simp only [Bool.not_true, Bool.and_false, Option.isSome_none,
      Bool.false_and, reduceIte]
    constructor
    · simp
    · rfl
  | some n =>
    dsimp only
    simp only [Bool.not_true, Bool.and_false, Option.isSome_some,
      Bool.true_and, Bool.false_and, reduceIte]
    constructor
    · simp
    · rfl

/-- An all-ok `bytecode_fileuriindex` with a normalizable URI interns it at
the end of the list and touches nothing else. -/
theorem fileuriindex_allok (p : h64program) (fu nu : String)
    (norm : String → Option String) (hnorm : norm fu = some nu) :
    (bytecode_fileuriindex p fu norm {}).1 =
      (p.symbols.fileuri.length : Int) ∧
    (bytecode_fileuriindex p fu norm {}).2.func = p.func ∧
    (bytecode_fileuriindex p fu norm {}).2.main_func_index =
      p.main_func_index := by
  unfold bytecode_fileuriindex
  dsimp only
  rw [hnorm]
  dsimp only
  simp only [Bool.not_true, reduceIte]
  exact ⟨rfl, rfl, rfl⟩

/-- All-ok `h64program_RegisterCFunction_part2`, non-native and not a
method: succeeds with the next function id, `main_func_index` alone. -/
theorem part2_allok (p : h64program) (name : Option String) (argc : Int)
    (kwn : List (Option String)) (lim : Bool) (mp ln : Option String)
    (thr : Int) :
    (h64program_RegisterCFunction_part2 p name false argc kwn lim mp ln thr
      (-1) {}).1 = (p.func.length : Int) ∧
    (h64program_RegisterCFunction_part2 p name false argc kwn lim mp ln thr
      (-1) {}).2.main_func_index = p.main_func_index := by
  unfold h64program_RegisterCFunction_part2
  dsimp only
  simp only [Bool.false_and, Bool.not_true, Bool.and_false, reduceIte]
  cases mp with
  | none =>
    dsimp only
    exact ⟨(part3_allok _ _ _ _ _ _ _ _).1, (part3_allok _ _ _ _ _ _ _ _).2⟩
  | some mp2 =>
    obtain ⟨k, hk⟩ := getModule_allok p.symbols mp2 ln
    dsimp only
    rw [hk]
    dsimp only
    exact ⟨(part3_allok _ _ _ _ _ _ _ _).1, (part3_allok _ _ _ _ _ _ _ _).2⟩

/-- All-ok `h64program_RegisterCFunction`, non-native, not a method, with a
normalizable file URI: next function id, `main_func_index` alone. -/
theorem registerCFunction_allok (p : h64program) (name : Option String)
    (fu nu : String) (argc : Int) (kwn : List (Option String)) (lim : Bool)
    (mp ln : Option String) (thr : Int) (norm : String → Option String)
    (hnorm : norm fu = some nu) :
    (h64program_RegisterCFunction p name false (some fu) argc kwn lim mp ln
      thr (-1) norm {}).1 = (p.func.length : Int) ∧
    (h64program_RegisterCFunction p name false (some fu) argc kwn lim mp ln
      thr (-1) norm {}).2.main_func_index = p.main_func_index := by
  obtain ⟨e1, e2, e3⟩ := fileuriindex_allok p fu nu norm hnorm
  unfold h64program_RegisterCFunction
  dsimp only
  simp only [Bool.not_true, reduceIte]
  rw [e1, if_neg (show ¬((p.symbols.fileuri.length : Int) < 0) by omega)]
  refine ⟨?_, ?_⟩
  · exact (part2_allok _ name argc kwn lim mp ln thr).1.trans (by rw [e2])
  · exact (part2_allok _ name argc kwn lim mp ln thr).2.trans e3

/-- An all-allocations-succeed `h64program_RegisterHorse64Function` call on
a non-method function with a normalizable file URI succeeds: it returns the
next function id and leaves `main_func_index` alone. -/
theorem registerH64_allok (p : h64program) (name : Option String)
    (fu nu : String) (argc : Int) (kwn : List (Option String)) (lim : Bool)
    (mp ln : Option String) (norm : String → Option String)
    (hnorm : norm fu = some nu) :
    (h64program_RegisterHorse64Function p name (some fu) argc kwn lim mp ln
      (-1) norm {}).1 = (p.func.length : Int) ∧
    (h64program_RegisterHorse64Function p name (some fu) argc kwn lim mp ln
      (-1) norm {}).2.main_func_index = p.main_func_index := by
  obtain ⟨e1, e2⟩ := registerCFunction_allok p name fu nu argc kwn lim mp
    ln (-1) norm hnorm
  unfold h64program_RegisterHorse64Function
  dsimp only
  rw [e1, if_pos (show ((p.func.length : Int) ≥ 0) by omega)]
  exact ⟨rfl, e2⟩

/-- Claim C7.  With `extract_main` requested, resolving a second global
function definition named "main" (the program already records a first main,
`main_func_index ≥ 0`) succeeds without touching `main_func_index` and
appends the "unexpected duplicate main func found" ERROR diagnostic to the
AST result messages, whose success flag becomes false. -/
theorem C7_duplicate_main (st : resolverstate) (exprIdx fuel : Nat)
    (norm : String → Option String) (nu : String) (e : h64expression)
    (he : st.exprs.getD exprIdx {} = e)
    (h1 : e.etype = .FUNCDEF_STMT)
    (h2 : e.scope_is_global = true)
    (h3 : e.funcdef_name = some "main")
    (h4 : e.storage_set = false)
    (h5 : e.parent = none)
    (h6 : st.program.main_func_index ≥ 0)
    (h7 : norm st.ast_fileuri = some nu) :
    (scoperesolver_ComputeItemStorage st exprIdx true norm {}
      (fuel + 1)).1 = true ∧
    (scoperesolver_ComputeItemStorage st exprIdx true norm {}
      (fuel + 1)).2.2.program.main_func_index =
      st.program.main_func_index ∧
    (scoperesolver_ComputeItemStorage st exprIdx true norm {}
      (fuel + 1)).2.2.ast_resultmsg.success = false ∧
    (scoperesolver_ComputeItemStorage st exprIdx true norm {}
      (fuel + 1)).2.2.ast_resultmsg.messages =
      st.ast_resultmsg.messages ++
      [{ mtype := H64MSG_ERROR,
         message := "unexpected duplicate main func found",
         fileuri := some st.ast_fileuri, line := e.line,
         column := e.column }] := by
  obtain ⟨e1, e2⟩ := registerH64_allok st.program (some "main")
    st.ast_fileuri nu e.funcdef_args.arg_count
    (buildKwargNames e.funcdef_args)
    e.funcdef_args.last_posarg_is_multiarg st.ast_module_path
    st.ast_library_name norm h7
  have b1 : (h64expressiontype.FUNCDEF_STMT ==
    h64expressiontype.VARDEF_STMT) = false := rfl
  have b2 : (h64expressiontype.FUNCDEF_STMT ==
    h64expressiontype.CLASSDEF_STMT) = false := rfl
  have b3 : (h64expressiontype.FUNCDEF_STMT ==
    h64expressiontype.FUNCDEF_STMT) = true := rfl
  have b4 : (h64expressiontype.FUNCDEF_STMT ==
    h64expressiontype.INLINEFUNCDEF) = false := rfl
  have b5 : ((some "main" : Option String) == some "main") = true := rfl
  unfold scoperesolver_ComputeItemStorage surroundingClassWalk
    kwargStrdupFails result_AddMessage result_TransferMessages
  dsimp only
  simp only [he, h1, h2, h3, h4, h5, b1, b2, b3, b4, b5, Bool.true_or,
    Bool.or_true, Bool.false_or, Bool.or_false, Bool.not_true,
    Bool.true_and, Bool.and_true, Bool.false_and, Bool.and_false,
    Bool.false_eq_true, eq_self_iff_true, if_false, if_true, reduceIte]
  rw [e1, e2]
  rw [if_neg (show ¬((st.program.func.length : Int) < 0) by omega)]
  rw [if_pos h6]
  dsimp only
  exact ⟨rfl, e2, rfl, rfl⟩

/-- Claim C7 witness: the duplicate-main outcome on the concrete
`C7_w_state` scenario (second global "main" at AST node 0, first main
already recorded at function id 0). -/
theorem C7_witness :
    (scoperesolver_ComputeItemStorage C7_w_state 0 true normIdent {}
      1).1 = true ∧
    (scoperesolver_ComputeItemStorage C7_w_state 0 true normIdent {}
      1).2.2.program.main_func_index =
      C7_w_state.program.main_func_index ∧
    (scoperesolver_ComputeItemStorage C7_w_state 0 true normIdent {}
      1).2.2.ast_resultmsg.success = false ∧
    (scoperesolver_ComputeItemStorage C7_w_state 0 true normIdent {}
      1).2.2.ast_resultmsg.messages =
      C7_w_state.ast_resultmsg.messages ++
      [{ mtype := H64MSG_ERROR,
         message := "unexpected duplicate main func found",
         fileuri := some C7_w_state.ast_fileuri,
         line := (C7_w_state.exprs.getD 0 {}).line,
         column := (C7_w_state.exprs.getD 0 {}).column }] :=
  C7_duplicate_main C7_w_state 0 0 normIdent "file:///m.h64"
    (C7_w_state.exprs.getD 0 {}) rfl rfl rfl rfl rfl rfl (by decide) rfl

/-- Setting one store slot with a record that keeps the built flag
preserves builtness at every index. -/
theorem builtMono_set (s : List astrec) (a : Nat) (r : astrec)
    (hr : (s.getD a {}).global_storage_built = true →
      r.global_storage_built = true) (x : Nat)
    (hx : (s.getD x {}).global_storage_built = true) :
    ((s.set a r).getD x {}).global_storage_built = true := by
  by_cases hax : a = x
  · subst hax
    by_cases hl : a < s.length
    · rw [getD_set_self _ _ _ _ hl]
      exact hr hx
    · rw [List.set_eq_of_length_le (le_of_not_lt hl)]
      exact hx
  · rw [getD_set_ne _ _ _ _ _ hax]
    exact hx

/-- The import-loading loop never touches the `applied` log. -/
theorem loadLoop_applied (env : BuildEnv) (astId : Nat) :
    ∀ (l : List Nat) (st : buildstate),
      (loadImportsLoop env st astId l).2.applied = st.applied := by
  intro l
  induction l with
  | nil => intro st; rfl
  | cons i rest ih =>
    intro st
    unfold loadImportsLoop
    dsimp only
    repeat' split
    all_goals first | rfl | exact ih _

/-- The import-loading loop never changes the store's length. -/
theorem loadLoop_length (env : BuildEnv) (astId : Nat) :
    ∀ (l : List Nat) (st : buildstate),
      (loadImportsLoop env st astId l).2.store.length =
        st.store.length := by
  intro l
  induction l with
  | nil => intro st; rfl
  | cons i rest ih =>
    intro st
    unfold loadImportsLoop
    dsimp only
    repeat' split
    all_goals first
      | rfl
      | exact ih _
      | (exact (ih _).trans (by
          simp [setASTSuccess, setImportReferenced]))

/-- The import-loading loop preserves builtness at every index. -/
theorem loadLoop_mono (env : BuildEnv) (astId : Nat) :
    ∀ (l : List Nat) (st : buildstate) (x : Nat),
      (st.store.getD x {}).global_storage_built = true →
      ((loadImportsLoop env st astId l).2.store.getD
        x {}).global_storage_built = true := by
  intro l
  induction l with
  | nil => intro st x hx; exact hx
  | cons i rest ih =>
    intro st x hx
    unfold loadImportsLoop
    dsimp only
    repeat' split
    all_goals first
      | exact hx
      | exact ih _ _ hx
      | (refine ih _ _ ?_
         simp only [setASTSuccess, setImportReferenced]
         refine builtMono_set _ _ _ ?_ _ hx
         exact fun h => h)

/-- The import-loading loop only writes the slot of the AST whose
imports it loads. -/
theorem loadLoop_stable (env : BuildEnv) (astId : Nat) :
    ∀ (l : List Nat) (st : buildstate) (x : Nat), x ≠ astId →
      (loadImportsLoop env st astId l).2.store.getD x {} =
        st.store.getD x {} := by
  intro l
  induction l with
  | nil => intro st x _; rfl
  | cons i rest ih =>
    intro st x hx
    unfold loadImportsLoop
    dsimp only
    repeat' split
    all_goals first
      | rfl
      | exact ih _ _ hx
      | (exact (ih _ _ hx).trans (getD_set_ne _ _ _ _ _ (fun h =>
          hx h.symm)))

/-- `buildOne` appends at most its own `(astId, extract_main)` event. -/
theorem buildOne_applied (env : BuildEnv) (st : buildstate) (astId : Nat)
    (em : Bool) :
    ∃ tail, (buildOne env st astId em).2.applied = st.applied ++ tail ∧
      ∀ pr ∈ tail, pr = (astId, em) := by
  unfold buildOne
  dsimp only
  rcases hD : env.deriveModulePath astId with _ | ⟨mp2, lib2⟩
  all_goals dsimp only
  all_goals repeat' split
  all_goals first
    | (rename_i heq
       have hsnd := congrArg Prod.snd heq
       dsimp only at hsnd
       rw [← hsnd, loadLoop_applied]
       first
         | (refine ⟨[], ?_, ?_⟩ <;> (simp; done))
         | (refine ⟨[(astId, em)], ?_, ?_⟩ <;> (simp; done)))
    | (refine ⟨[], ?_, ?_⟩ <;> (simp; done))

/-- `buildOne` never changes the store's length. -/
theorem buildOne_length (env : BuildEnv) (st : buildstate) (astId : Nat)
    (em : Bool) :
    (buildOne env st astId em).2.store.length = st.store.length := by
  unfold buildOne
  dsimp only
  rcases hD : env.deriveModulePath astId with _ | ⟨mp2, lib2⟩
  all_goals dsimp only
  all_goals repeat' split
  all_goals first
    | rfl
    | simp
    | skip
  all_goals (rename_i heq
             have hsnd := congrArg Prod.snd heq
             dsimp only at hsnd
             rw [← hsnd, loadLoop_length]
             simp [setASTSuccess, setImportReferenced])

/-- `buildOne` preserves builtness at every index. -/
theorem buildOne_mono (env : BuildEnv) (st : buildstate) (astId : Nat)
    (em : Bool) (x : Nat)
    (hx : (st.store.getD x {}).global_storage_built = true) :
    ((buildOne env st astId em).2.store.getD
      x {}).global_storage_built = true := by
  unfold buildOne
  dsimp only
  rcases hD : env.deriveModulePath astId with _ | ⟨mp2, lib2⟩
  all_goals dsimp only
  all_goals repeat' split
  all_goals first
    | exact hx
    | (refine builtMono_set _ _ _ ?_ _ hx
       exact fun _ => rfl)
    | (refine builtMono_set _ _ _ ?_ _
        (builtMono_set _ _ _ (fun _ => rfl) _ hx)
       exact fun h => h)
    | skip
  all_goals (rename_i heq
             have hsnd := congrArg Prod.snd heq
             dsimp only at hsnd
             rw [← hsnd]
             refine loadLoop_mono env astId _ _ x ?_
             first
               | (refine builtMono_set _ _ _ ?_ _ hx
                  exact fun _ => rfl)
               | (refine builtMono_set _ _ _ ?_ _
                   (builtMono_set _ _ _ (fun _ => rfl) _ hx)
                  exact fun h => h))

/-- Marking a slot with a built record makes it read back built. -/
theorem built_after_mark (s : List astrec) (astId : Nat) (r : astrec)
    (h : astId < s.length) (hb : r.global_storage_built = true) :
    ((s.set astId r).getD astId {}).global_storage_built = true := by
  rw [getD_set_self _ _ _ _ h]
  exact hb

/-- A successful `buildOne` leaves its (in-range) target marked built. -/
theorem buildOne_built (env : BuildEnv) (st : buildstate) (astId : Nat)
    (em : Bool) (hr : astId < st.store.length)
    (h : (buildOne env st astId em).1 = true) :
    ((buildOne env st astId em).2.store.getD
      astId {}).global_storage_built = true := by
  revert h
  unfold buildOne
  dsimp only
  rcases hD : env.deriveModulePath astId with _ | ⟨mp2, lib2⟩
  all_goals dsimp only
  all_goals repeat' split
  all_goals intro h
  all_goals first
    | assumption
    | (dsimp only at h
       exact absurd h (by decide))
    | skip
  all_goals (rename_i heq
             have hsnd := congrArg Prod.snd heq
             dsimp only at hsnd
             rw [← hsnd]
             refine loadLoop_mono env astId _ _ astId ?_
             first
               | exact built_after_mark _ _ _ hr rfl
               | exact built_after_mark _ _ _ (by simpa using hr) rfl
               | (refine built_after_mark _ _ _ (by simpa using hr) ?_
                  dsimp only
                  rw [getD_set_self _ _ _ _ hr]))

/-- `buildOne` on a target that is not `x` — or on an already-built `x` —
leaves `x`'s record untouched. -/
theorem buildOne_stable (env : BuildEnv) (st : buildstate) (b : Nat)
    (em : Bool) (x : Nat)
    (hx : x = b → (st.store.getD x {}).global_storage_built = true) :
    (buildOne env st b em).2.store.getD x {} = st.store.getD x {} := by
  by_cases hxb : x = b
  · subst hxb
    unfold buildOne
    dsimp only
    rw [if_pos (hx rfl)]
  · have hbx : b ≠ x := fun h => hxb h.symm
    unfold buildOne
    dsimp only
    rcases hD : env.deriveModulePath b with _ | ⟨mp2, lib2⟩
    all_goals dsimp only
    all_goals repeat' split
    all_goals first
      | rfl
      | exact getD_set_ne _ _ _ _ _ hbx
      | (rw [getD_set_ne _ _ _ _ _ hbx, getD_set_ne _ _ _ _ _ hbx])
      | skip
    all_goals (rename_i heq
               have hsnd := congrArg Prod.snd heq
               dsimp only at hsnd
               rw [← hsnd, loadLoop_stable env b _ _ x hxb]
               first
                 | exact getD_set_ne _ _ _ _ _ hbx
                 | (rw [getD_set_ne _ _ _ _ _ hbx,
                     getD_set_ne _ _ _ _ _ hbx]))

/-- Every event the recursive block appends carries `extract_main =
false`. -/
theorem recurseLoop_applied (env : BuildEnv) (astId : Nat) :
    ∀ (l : List Nat) (st : buildstate),
      ∃ tail, (recurseImportsLoop env st astId l).2.applied =
        st.applied ++ tail ∧ ∀ pr ∈ tail, pr.2 = false := by
  intro l
  induction l with
  | nil =>
    intro st
    refine ⟨[], ?_, by simp⟩
    rw [List.append_nil]
    rfl
  | cons i rest ih =>
    intro st
    unfold recurseImportsLoop
    dsimp only
    split
    · exact ih st
    split
    · exact ih st
    obtain ⟨t1, ht1, hf1⟩ := buildOne_applied env st _ false
    split
    all_goals rename_i heq
    all_goals have hsnd := congrArg Prod.snd heq
    all_goals dsimp only at hsnd
    · refine ⟨t1, ?_, fun pr hpr => by rw [hf1 pr hpr]⟩
      rw [← hsnd]
      exact ht1
    · rename_i stX
      obtain ⟨t2, ht2, hf2⟩ := ih stX
      refine ⟨t1 ++ t2, ?_, ?_⟩
      · rw [ht2, ← hsnd, ht1]
        simp
      · intro pr hpr
        rcases List.mem_append.mp hpr with h1 | h1
        · rw [hf1 pr h1]
        · exact hf2 pr h1

/-- The recursive block preserves builtness at every index. -/
theorem recurseLoop_mono (env : BuildEnv) (astId : Nat) :
    ∀ (l : List Nat) (st : buildstate) (x : Nat),
      (st.store.getD x {}).global_storage_built = true →
      ((recurseImportsLoop env st astId l).2.store.getD
        x {}).global_storage_built = true := by
  intro l
  induction l with
  | nil => intro st x hx; exact hx
  | cons i rest ih =>
    intro st x hx
    unfold recurseImportsLoop
    dsimp only
    split
    · exact ih st x hx
    split
    · exact ih st x hx
    split
    all_goals rename_i heq
    all_goals have hsnd := congrArg Prod.snd heq
    all_goals dsimp only at hsnd
    · rw [← hsnd]
      exact buildOne_mono env st _ false x hx
    · rename_i stX
      refine ih stX x ?_
      rw [← hsnd]
      exact buildOne_mono env st _ false x hx

/-- Once the entry is built, the recursive block never touches its
record. -/
theorem recurseLoop_stable (env : BuildEnv) (astId : Nat) :
    ∀ (l : List Nat) (st : buildstate),
      (st.store.getD astId {}).global_storage_built = true →
      (recurseImportsLoop env st astId l).2.store.getD astId {} =
        st.store.getD astId {} := by
  intro l
  induction l with
  | nil => intro st _; rfl
  | cons i rest ih =>
    intro st hb
    unfold recurseImportsLoop
    dsimp only
    split
    · exact ih st hb
    split
    · exact ih st hb
    split
    all_goals rename_i heq
    all_goals have hsnd := congrArg Prod.snd heq
    all_goals dsimp only at hsnd
    · rw [← hsnd]
      exact buildOne_stable env st _ false astId (fun _ => hb)
    · rename_i stX
      have hstep : stX.store.getD astId {} = st.store.getD astId {} := by
        rw [← hsnd]
        exact buildOne_stable env st _ false astId (fun _ => hb)
      have hb2 : (stX.store.getD astId {}).global_storage_built = true := by
        rw [hstep]
        exact hb
      rw [ih stX hb2, hstep]

/-- The recursive block never changes the store's length. -/
theorem recurseLoop_length (env : BuildEnv) (astId : Nat) :
    ∀ (l : List Nat) (st : buildstate),
      (recurseImportsLoop env st astId l).2.store.length =
        st.store.length := by
  intro l
  induction l with
  | nil => intro st; rfl
  | cons i rest ih =>
    intro st
    unfold recurseImportsLoop
    dsimp only
    split
    · exact ih st
    split
    · exact ih st
    split
    all_goals rename_i heq
    all_goals have hsnd := congrArg Prod.snd heq
    all_goals dsimp only at hsnd
    · rw [← hsnd]
      exact buildOne_length env st _ false
    · rename_i stX
      rw [ih stX, ← hsnd]
      exact buildOne_length env st _ false

/-- On a fully successful run, the recursive block builds the referenced
AST of every import-statement definition it was given (reading the entry's
definitions, which it never modifies once the entry is built). -/
theorem recurseLoop_builds (env : BuildEnv) (astId : Nat) :
    ∀ (l : List Nat) (st : buildstate),
      (st.store.getD astId {}).global_storage_built = true →
      (recurseImportsLoop env st astId l).1 = true →
      ∀ j ∈ l, ∀ imp b,
        (st.store.getD astId {}).defs.getD j .otherdecl =
          .importstmt imp →
        imp.referenced_ast = some b → b < st.store.length →
        ((recurseImportsLoop env st astId l).2.store.getD
          b {}).global_storage_built = true := by
  intro l
  induction l with
  | nil =>
    intro st _ _ j hj
    simp at hj
  | cons i rest ih =>
    intro st hb hs j hj imp b hdef href hblen
    unfold recurseImportsLoop at hs ⊢
    dsimp only at hs ⊢
    cases hdi : (st.store.getD astId {}).defs.getD i .otherdecl with
    | otherdecl =>
      simp only [hdi] at hs ⊢
      rcases List.mem_cons.mp hj with hji | hji
      · subst hji
        rw [hdi] at hdef
        cases hdef
      · exact ih st hb hs j hji imp b hdef href hblen
    | importstmt imp2 =>
      simp only [hdi] at hs ⊢
      cases href2 : imp2.referenced_ast with
      | none =>
        simp only [href2] at hs ⊢
        rcases List.mem_cons.mp hj with hji | hji
        · subst hji
          rw [hdi] at hdef
          cases hdef
          rw [href2] at href
          cases href
        · exact ih st hb hs j hji imp b hdef href hblen
      | some b2 =>
        simp only [href2] at hs ⊢
        first
          | dsimp only at hs ⊢
          | skip
        rcases hBO : buildOne env st b2 false with ⟨r1, stX⟩
        cases r1 with
        | false =>
          rw [hBO] at hs
          dsimp only at hs
          exact absurd hs (by decide)
        | true =>
          rw [hBO] at hs
          dsimp only at hs ⊢
          have hb1 : (buildOne env st b2 false).1 = true := by rw [hBO]
          have hsX : (buildOne env st b2 false).2 = stX := by rw [hBO]
          have hbX : (stX.store.getD astId {}).global_storage_built =
              true := by
            rw [← hsX]
            exact buildOne_mono env st b2 false astId hb
          have hstab : stX.store.getD astId {} =
              st.store.getD astId {} := by
            rw [← hsX]
            exact buildOne_stable env st b2 false astId (fun _ => hb)
          have hlen : stX.store.length = st.store.length := by
            rw [← hsX]
            exact buildOne_length env st b2 false
          rcases List.mem_cons.mp hj with hji | hji
          · subst hji
            rw [hdi] at hdef
            cases hdef
            rw [href2] at href
            cases href
            refine recurseLoop_mono env astId rest stX b ?_
            rw [← hsX]
            exact buildOne_built env st b false (by omega) hb1
          · refine ih stX hbX hs j hji imp b ?_ href ?_
            · rw [hstab]
              exact hdef
            · omega

/-- Claim C8 (amended).  In recursive mode, beyond the entry's own
storage application every recorded application carries `extract_main =
false` (so only the entry can set `main_func_index`), and — when the whole
run succeeds — the AST referenced by each import-statement definition of
the entry is built afterwards.  The recursion goes exactly one level: the
recursive call passes `recursive = 0`, as `C8_not_transitive` shows. -/
theorem C8_one_level_recursion (env : BuildEnv) (st : buildstate)
    (astId : Nat) (em : Bool) :
    (∃ tail, (buildASTGlobalStorage env st astId true em).2.applied =
        st.applied ++ tail ∧
      ∀ pr ∈ tail, pr.2 = true → pr = (astId, em)) ∧
    ((buildASTGlobalStorage env st astId true em).1 = true →
      ∀ j imp b,
        ((buildASTGlobalStorage env st astId true
          em).2.store.getD astId {}).defs.getD j .otherdecl =
          .importstmt imp →
        imp.referenced_ast = some b → b < st.store.length →
        ((buildASTGlobalStorage env st astId true em).2.store.getD
          b {}).global_storage_built = true) := by
  unfold buildASTGlobalStorage
  rcases hB : buildOne env st astId em with ⟨b1, st1⟩
  cases b1 with
  | false =>
    first
      | dsimp only
      | skip
    constructor
    · obtain ⟨t1, ht1, hf1⟩ := buildOne_applied env st astId em
      rw [hB] at ht1
      dsimp only at ht1
      exact ⟨t1, ht1, fun pr hpr _ => hf1 pr hpr⟩
    · intro h
      exact absurd h (by decide)
  | true =>
    first
      | dsimp only
      | skip
    rw [if_pos rfl]
    constructor
    · obtain ⟨t1, ht1, hf1⟩ := buildOne_applied env st astId em
      rw [hB] at ht1
      dsimp only at ht1
      obtain ⟨t2, ht2, hf2⟩ := recurseLoop_applied env astId
        (List.range ((st1.store.getD astId {}).defs.length)) st1
      refine ⟨t1 ++ t2, ?_, ?_⟩
      · rw [ht2, ht1, List.append_assoc]
      · intro pr hpr htrue
        rcases List.mem_append.mp hpr with h1 | h1
        · exact hf1 pr h1
        · exact absurd htrue (by simp [hf2 pr h1])
    · intro hs j imp b hdef href hblen
      have hlen1 : st1.store.length = st.store.length := by
        have := buildOne_length env st astId em
        rw [hB] at this
        exact this
      by_cases hr : astId < st.store.length
      · have hb1 : (buildOne env st astId em).1 = true := by rw [hB]
        have hbuilt : (st1.store.getD
            astId {}).global_storage_built = true := by
          have := buildOne_built env st astId em hr hb1
          rw [hB] at this
          exact this
        have hstable := recurseLoop_stable env astId
          (List.range ((st1.store.getD astId {}).defs.length)) st1 hbuilt
        rw [hstable] at hdef
        have hjlen : j < (st1.store.getD astId {}).defs.length := by
          by_contra hc
          rw [List.getD_eq_default _ _ (le_of_not_lt hc)] at hdef
          cases hdef
        exact recurseLoop_builds env astId
          (List.range ((st1.store.getD astId {}).defs.length)) st1 hbuilt
          hs j (List.mem_range.mpr hjlen) imp b hdef href (by omega)
      · have hempty : st1.store.getD astId {} = {} := by
          rw [List.getD_eq_default]
          omega
        rw [hempty] at hdef
        have hz : ({} : astrec).defs.length = 0 := rfl
        rw [hz] at hdef
        dsimp only [List.range_zero] at hdef
        rw [show recurseImportsLoop env st1 astId [] = (true, st1) from
          rfl] at hdef
        dsimp only at hdef
        rw [hempty] at hdef
        cases hdef

end Claims










end Horse64
